import Mathlib

/-!
# Verification of the 3D-Catan server game core

A shallow embedding of the authoritative server-side game core:
  * shared resource/cost helpers  (packages/shared/src/types/resources.ts,
    constants/costs.ts, types/player.ts)
  * hex geometry                  (shared hex math: hexRing / hexSpiral / hexId)
  * the board generator           (server BoardGenerator)
  * the rules engine              (server GameEngine)
  * the command handlers          (server GameManager, one in-memory game slot)
  * the socket event layer        (server socket game handlers, modelled as the
    list of emissions each event produces)

JavaScript numbers that only ever hold integers are modelled as `Int`
(resource counts may go negative: `subtractResources` has no guard, exactly
as in the source).  Array indices are `Nat`.  `Math.random()`-driven choices
(dice, steal index, dev-card index, shuffles) are taken as explicit
parameters, as the server injects them at the same points.
-/

namespace Catan

/-- Resource kinds. -/
inductive Resource where
  | brick | lumber | ore | grain | wool
deriving DecidableEq, Repr

/-- `ResourceCount`: one (possibly negative) integer per resource. -/
structure ResourceCount where
  brick : Int
  lumber : Int
  ore : Int
  grain : Int
  wool : Int
deriving DecidableEq, Repr

/-- `createEmptyResources()` -/
def createEmptyResources : ResourceCount := ⟨0, 0, 0, 0, 0⟩

/-- `countResources`: total number of cards in hand. -/
def countResources (r : ResourceCount) : Int :=
  r.brick + r.lumber + r.ore + r.grain + r.wool

/-- `addResources` (a `Partial<ResourceCount>` argument is a full record
whose absent fields are `0`, matching the `?? 0` in the source). -/
def addResources (current toAdd : ResourceCount) : ResourceCount :=
  ⟨current.brick + toAdd.brick, current.lumber + toAdd.lumber,
   current.ore + toAdd.ore, current.grain + toAdd.grain,
   current.wool + toAdd.wool⟩

/-- `subtractResources` — note: no non-negativity guard, as in the source. -/
def subtractResources (current toSubtract : ResourceCount) : ResourceCount :=
  ⟨current.brick - toSubtract.brick, current.lumber - toSubtract.lumber,
   current.ore - toSubtract.ore, current.grain - toSubtract.grain,
   current.wool - toSubtract.wool⟩

/-- `canAfford` -/
def canAfford (resources cost : ResourceCount) : Bool :=
  cost.brick ≤ resources.brick ∧ cost.lumber ≤ resources.lumber ∧
  cost.ore ≤ resources.ore ∧ cost.grain ≤ resources.grain ∧
  cost.wool ≤ resources.wool

/-- Add `amount` of one resource, `current[resource] = (current[resource] ?? 0) + amount`. -/
def addOneResource (current : ResourceCount) (res : Resource) (amount : Int) :
    ResourceCount :=
  match res with
  | .brick => { current with brick := current.brick + amount }
  | .lumber => { current with lumber := current.lumber + amount }
  | .ore => { current with ore := current.ore + amount }
  | .grain => { current with grain := current.grain + amount }
  | .wool => { current with wool := current.wool + amount }

/-- `BUILDING_COSTS.road` -/
def roadCost : ResourceCount := ⟨1, 1, 0, 0, 0⟩
/-- `BUILDING_COSTS.settlement` -/
def settlementCost : ResourceCount := ⟨1, 1, 0, 1, 1⟩
/-- `BUILDING_COSTS.city` -/
def cityCost : ResourceCount := ⟨0, 0, 3, 2, 0⟩
/-- `BUILDING_COSTS.devCard` -/
def devCardCost : ResourceCount := ⟨0, 0, 1, 1, 1⟩

/-- Terrain kinds. -/
inductive Terrain where
  | desert | hills | mountains | forest | pasture | fields
deriving DecidableEq, Repr

/-- `TERRAIN_TO_RESOURCE` -/
def TERRAIN_TO_RESOURCE : Terrain → Option Resource
  | .desert => none
  | .hills => some .brick
  | .mountains => some .ore
  | .forest => some .lumber
  | .pasture => some .wool
  | .fields => some .grain

/-- Development-card kinds. -/
inductive DevCardType where
  | knight | victory_point | road_building | year_of_plenty | monopoly
deriving DecidableEq, Repr

/-- `DevCard` -/
structure DevCard where
  id : String
  type : DevCardType
  purchasedOnTurn : Int
  played : Bool
deriving DecidableEq, Repr

/-- `PendingDiscard` -/
structure PendingDiscard where
  playerId : String
  amountToDiscard : Int
  discarded : Bool
deriving DecidableEq, Repr

/-- `PlayerState` (the `avatarUrl` optional display field is dropped). -/
structure PlayerState where
  id : String
  userId : String
  username : String
  color : String
  resources : ResourceCount
  devCards : List DevCard
  settlements : List String
  cities : List String
  roads : List String
  knightsPlayed : Int
  longestRoadLength : Int
  hasLongestRoad : Bool
  hasLargestArmy : Bool
  publicVictoryPoints : Int
  isConnected : Bool
deriving DecidableEq, Repr

/-- `calculatePublicVictoryPoints` (computed from buildings and awards,
not from the `publicVictoryPoints` field). -/
def calculatePublicVictoryPoints (player : PlayerState) : Int :=
  (player.settlements.length : Int) + (player.cities.length : Int) * 2 +
    (if player.hasLongestRoad then 2 else 0) +
    (if player.hasLargestArmy then 2 else 0)

/-- `calculateTotalVictoryPoints` -/
def calculateTotalVictoryPoints (player : PlayerState) : Int :=
  calculatePublicVictoryPoints player +
    ((player.devCards.filter
        (fun card => decide (card.type = .victory_point ∧ card.played = false))).length : Int)

/-- `AxialCoord` -/
structure AxialCoord where
  q : Int
  r : Int
deriving DecidableEq, Repr

/-- `HexTile` -/
structure HexTile where
  id : String
  coord : AxialCoord
  terrain : Terrain
  numberToken : Option Int
deriving DecidableEq, Repr

inductive BuildingType where
  | settlement | city
deriving DecidableEq, Repr

/-- `VertexBuilding` -/
structure VertexBuilding where
  vertexId : String
  playerId : String
  type : BuildingType
deriving DecidableEq, Repr

/-- `Road` -/
structure Road where
  edgeId : String
  playerId : String
deriving DecidableEq, Repr

inductive PortType where
  | generic | brick | lumber | ore | grain | wool
deriving DecidableEq, Repr

/-- `Port` (the float render position `{angle, distance}` is display-only
and omitted). -/
structure Port where
  id : String
  type : PortType
deriving DecidableEq, Repr

/-- `SerializableBoardState`; the `vertices` and `edges` tables are always
`[]` on the server (`generateBoard` returns them empty and nothing fills
them), so they are omitted. -/
structure Board where
  hexes : List HexTile
  ports : List Port
  buildings : List VertexBuilding
  roads : List Road
  robberHexId : String
deriving DecidableEq, Repr

inductive GameStatus where
  | waiting | setup | playing | finished | abandoned
deriving DecidableEq, Repr

inductive GamePhase where
  | roll_for_order | setup_first | setup_second | playing | finished
deriving DecidableEq, Repr

inductive TurnPhase where
  | pre_roll | post_roll | robber_move | robber_steal | discard | main
  | road_building | year_of_plenty | monopoly
deriving DecidableEq, Repr

/-- `RollForOrderState`; the `rolls` JS object is an insertion-ordered
association list. -/
structure RollForOrderState where
  rolls : List (String × Int)
  currentRollerIndex : Nat
  allRolled : Bool
deriving DecidableEq, Repr

inductive PlacementType where
  | settlement | road
deriving DecidableEq, Repr

/-- `SetupPhaseState` -/
structure SetupPhaseState where
  currentRound : Nat
  placementType : PlacementType
  settlementsNeedingRoads : List (String × String)
deriving DecidableEq, Repr

/-- `GameState`.  `activeTrade` is only ever `null` in the engine and is
modelled as `Option Unit`. -/
structure GameState where
  id : String
  code : String
  status : GameStatus
  phase : GamePhase
  board : Board
  players : List PlayerState
  turnOrder : List String
  currentPlayerIndex : Nat
  turnNumber : Int
  turnPhase : TurnPhase
  lastDiceRoll : Option (Int × Int)
  devCardDeckCount : Int
  rollForOrderState : Option RollForOrderState
  setupState : Option SetupPhaseState
  activeTrade : Option Unit
  pendingDiscards : List PendingDiscard
  roadBuildingRoadsPlaced : Int
  longestRoadHolder : Option String
  longestRoadLength : Int
  largestArmyHolder : Option String
  largestArmySize : Int
  winnerId : Option String
  createdAt : Int
  startedAt : Option Int
  finishedAt : Option Int
deriving DecidableEq, Repr

/-! ## Hex geometry (shared hex math) -/

/-- `HEX_DIRECTIONS`: E, NE, NW, W, SW, SE. -/
def HEX_DIRECTIONS : List AxialCoord :=
  [⟨1, 0⟩, ⟨1, -1⟩, ⟨0, -1⟩, ⟨-1, 0⟩, ⟨-1, 1⟩, ⟨0, 1⟩]

/-- `getHexNeighbor` (`direction % 6` always indexes the 6-element list, so
the source's throw on a missing direction is unreachable). -/
def getHexNeighbor (hex : AxialCoord) (direction : Nat) : AxialCoord :=
  let dir := HEX_DIRECTIONS.getD (direction % 6) ⟨0, 0⟩
  ⟨hex.q + dir.q, hex.r + dir.r⟩

/-- `hexRing`: start `radius` steps in direction 4 (southwest), then walk
`radius` steps in each of the six directions, collecting positions. -/
def hexRing (center : AxialCoord) (radius : Nat) : List AxialCoord :=
  if radius = 0 then [center]
  else
    let start : AxialCoord := ⟨center.q + (-1) * radius, center.r + 1 * radius⟩
    ((List.range 6).foldl
      (fun (st : List AxialCoord × AxialCoord) i =>
        (List.range radius).foldl
          (fun st _ => (st.1 ++ [st.2], getHexNeighbor st.2 i)) st)
      ([], start)).1

/-- `hexSpiral`: concatenated rings of radius `0..radius`. -/
def hexSpiral (center : AxialCoord) (radius : Nat) : List AxialCoord :=
  (List.range (radius + 1)).foldl (fun acc r => acc ++ hexRing center r) []

/-- `hexId`: the stable string id `hex_<q>_<r>`. -/
def hexId (coord : AxialCoord) : String :=
  "hex_" ++ toString coord.q ++ "_" ++ toString coord.r

/-! ## Board generator (server BoardGenerator) -/

/-- `TERRAIN_DISTRIBUTION` (the generator's 19-element list). -/
def TERRAIN_DISTRIBUTION : List Terrain :=
  [.desert,
   .hills, .hills, .hills,
   .mountains, .mountains, .mountains,
   .forest, .forest, .forest, .forest,
   .pasture, .pasture, .pasture, .pasture,
   .fields, .fields, .fields, .fields]

/-- `NUMBER_DISTRIBUTION` -/
def NUMBER_DISTRIBUTION : List Int :=
  [2, 3, 3, 4, 4, 5, 5, 6, 6, 8, 8, 9, 9, 10, 10, 11, 11, 12]

/-- `PORT_TYPES` -/
def PORT_TYPES : List PortType :=
  [.generic, .generic, .generic, .generic,
   .brick, .lumber, .ore, .grain, .wool]

/-- Four times the squared `axialToWorld` distance between two hex centers
(with `HEX_SIZE = 1`): from `x = (3/2)q` and `z = (√3/2)q + √3·r` one gets
`4·d² = 9·dq² + 3·(dq + 2·dr)²` exactly.  The source compares `√(d²) < 2`,
i.e. `4·d² < 16`; on integer axial coordinates the attainable values are
integers (12 for touching hexes, 36 and up otherwise), bounded away from 16,
so the floating-point evaluation in the source decides the same way. -/
def quadrupleSquaredDistance (a b : AxialCoord) : Int :=
  let dq := a.q - b.q
  let dr := a.r - b.r
  9 * dq ^ 2 + 3 * (dq + 2 * dr) ^ 2

/-- `hasAdjacentHighNumbers`: some two distinct 6/8-token hexes closer than
two hex sizes. -/
def hasAdjacentHighNumbers (hexes : List HexTile) : Bool :=
  let highNumberHexes := hexes.filter
    (fun h => decide (h.numberToken = some 6 ∨ h.numberToken = some 8))
  highNumberHexes.any fun hex =>
    highNumberHexes.any fun other =>
      decide (hex.id ≠ other.id) &&
        decide (quadrupleSquaredDistance hex.coord other.coord < 16)

/-- `generatePorts`, applied to the already-shuffled port-type list. -/
def generatePorts (shuffledPortTypes : List PortType) : List Port :=
  (List.range 9).filterMap fun i =>
    (shuffledPortTypes.get? i).map fun portType =>
      ⟨"port_" ++ toString i, portType⟩

/-- One attempt of the generator's hex construction.  The source maps over
the spiral coords with `shuffledTerrains[index] ?? 'desert'` and a running
`numberIndex` into `shuffledNumbers` (`?? null`); consuming the two shuffled
lists head-first performs the same assignment. -/
def buildHexes : List AxialCoord → List Terrain → List Int → List HexTile
  | [], _, _ => []
  | c :: cs, ts, ns =>
    let terrain := ts.headD .desert
    if terrain = .desert then
      ⟨hexId c, c, terrain, none⟩ :: buildHexes cs ts.tail ns
    else
      match ns with
      | [] => ⟨hexId c, c, terrain, none⟩ :: buildHexes cs ts.tail []
      | n :: ns' => ⟨hexId c, c, terrain, some n⟩ :: buildHexes cs ts.tail ns'

/-- The supply of `shuffle` results: attempt `i` of the generator's loop
consumes `terrains i` and `numbers i`; `generatePorts` consumes `portTypes`. -/
structure ShuffleStream where
  terrains : Nat → List Terrain
  numbers : Nat → List Int
  portTypes : List PortType

/-- The 19 spiral coordinates `hexSpiral({q:0,r:0}, 2)`. -/
def boardCoords : List AxialCoord := hexSpiral ⟨0, 0⟩ 2

def maxAttempts : Nat := 100

/-- The generator's do-while loop: attempt `i` builds from the `i`-th pair
of shuffles, after which `attempts = i + 1`; it repeats while the layout
has adjacent 6/8 tokens and `attempts < maxAttempts`.  The fuel only bounds
the recursion; `maxAttempts` fuel is more than the guard lets the loop use. -/
def genLoop (s : ShuffleStream) : Nat → Nat → List HexTile × Nat
  | 0, i => (buildHexes boardCoords (s.terrains i) (s.numbers i), i + 1)
  | fuel + 1, i =>
    let hexes := buildHexes boardCoords (s.terrains i) (s.numbers i)
    let attempts := i + 1
    if hasAdjacentHighNumbers hexes ∧ attempts < maxAttempts then
      genLoop s fuel attempts
    else (hexes, attempts)

/-- `generateBoard`, returning the board together with the final `attempts`
counter — the source logs its balance warning exactly when
`attempts >= maxAttempts`, and returns the last attempt regardless. -/
def generateBoard (s : ShuffleStream) : Board × Nat :=
  let result := genLoop s maxAttempts 0
  let hexes := result.1
  let desertHex := hexes.find? (fun h => decide (h.terrain = .desert))
  let robberHexId := (desertHex.map (·.id)).getD ((hexes.head?.map (·.id)).getD "")
  ({ hexes := hexes, ports := generatePorts s.portTypes, buildings := [], roads := [],
     robberHexId := robberHexId }, result.2)

/-! ## Rules engine (server GameEngine) -/

def VICTORY_POINTS_TO_WIN : Int := 10

/-- `createPlayerState` -/
def createPlayerState (id userId username color : String) : PlayerState :=
  { id := id, userId := userId, username := username, color := color,
    resources := createEmptyResources, devCards := [], settlements := [],
    cities := [], roads := [], knightsPlayed := 0, longestRoadLength := 0,
    hasLongestRoad := false, hasLargestArmy := false, publicVictoryPoints := 0,
    isConnected := true }

/-- `createGameState`; the source calls `generateBoard()` and `Date.now()`
internally — the generated board and the clock value are passed in. -/
def createGameState (gameId code : String) (players : List PlayerState)
    (board : Board) (now : Int) : GameState :=
  { id := gameId, code := code, status := .playing, phase := .roll_for_order,
    board := board, players := players, turnOrder := players.map (·.id),
    currentPlayerIndex := 0, turnNumber := 1, turnPhase := .main,
    lastDiceRoll := none, devCardDeckCount := 25,
    rollForOrderState := some ⟨[], 0, false⟩, setupState := none,
    activeTrade := none, pendingDiscards := [], roadBuildingRoadsPlaced := 0,
    longestRoadHolder := none, longestRoadLength := 0,
    largestArmyHolder := none, largestArmySize := 0, winnerId := none,
    createdAt := now, startedAt := some now, finishedAt := none }

/-- `listStartsWith s p`: `p` is a leading piece of `s`. -/
def listStartsWith : List Char → List Char → Bool
  | _, [] => true
  | [], _ :: _ => false
  | a :: s, b :: p => a = b && listStartsWith s p

/-- Replace the first occurrence of `pat` by `rep` — JS
`String.prototype.replace` with a string pattern. -/
def jsReplaceFirstAux (pat rep : List Char) : List Char → List Char
  | [] => []
  | a :: s =>
    if listStartsWith (a :: s) pat then rep ++ (a :: s).drop pat.length
    else a :: jsReplaceFirstAux pat rep s

/-- JS `s.replace(pat, rep)` (first occurrence only). -/
def jsReplaceFirst (s pat rep : String) : String :=
  ⟨jsReplaceFirstAux pat.data rep.data s.data⟩

/-- Splitting on a separator character, keeping empty pieces. -/
def splitOnCharAux (sep : Char) : List Char → List Char → List (List Char)
  | [], acc => [acc.reverse]
  | c :: cs, acc =>
    if c = sep then acc.reverse :: splitOnCharAux sep cs []
    else splitOnCharAux sep cs (c :: acc)

/-- JS `s.split(sep)` for a one-character separator. -/
def jsSplit (s : String) (sep : Char) : List String :=
  (splitOnCharAux sep s.data []).map String.mk

/-- Lookup on the JS `Map` of distributions (association list in insertion
order). -/
def mapGetRC (m : List (String × ResourceCount)) (k : String) : Option ResourceCount :=
  (m.find? (fun e => decide (e.1 = k))).map (·.2)

/-- `Map.set`: replace an existing key in place, otherwise append. -/
def mapSetRC (m : List (String × ResourceCount)) (k : String) (v : ResourceCount) :
    List (String × ResourceCount) :=
  if m.any (fun e => decide (e.1 = k)) then
    m.map (fun e => if e.1 = k then (k, v) else e)
  else m ++ [(k, v)]

/-- `distributeResources`.  The adjacency test is the source's, verbatim:
`building.vertexId.split('_').slice(1)` is asked to `include`
`hex.id.replace('hex_', '')` (for generated ids `hex_<q>_<r>` the pattern
occurs once, so replace-first and replace-all agree). -/
def distributeResources (game : GameState) (diceTotal : Int) :
    List (String × ResourceCount) :=
  let rolledHexes := game.board.hexes.filter
    (fun h => decide (h.numberToken = some diceTotal ∧ h.id ≠ game.board.robberHexId))
  rolledHexes.foldl
    (fun distributions hex =>
      match TERRAIN_TO_RESOURCE hex.terrain with
      | none => distributions
      | some resource =>
        game.board.buildings.foldl
          (fun distributions building =>
            let vertexParts := jsSplit building.vertexId '_'
            let adjacentHexIds := vertexParts.drop 1
            if adjacentHexIds.contains (jsReplaceFirst hex.id "hex_" "") then
              let amount : Int := if building.type = .city then 2 else 1
              let current := (mapGetRC distributions building.playerId).getD createEmptyResources
              mapSetRC distributions building.playerId
                (addOneResource current resource amount)
            else distributions)
          distributions)
    []

/-- `applyResourceDistributions` -/
def applyResourceDistributions (game : GameState)
    (distributions : List (String × ResourceCount)) : GameState :=
  { game with players := game.players.map fun player =>
      match mapGetRC distributions player.id with
      | none => player
      | some distribution =>
        { player with resources := addResources player.resources distribution } }

/-- `handleRobber`: collect the players holding more than 7 cards, each
owing `Math.floor(handSize / 2)`. -/
def handleRobber (game : GameState) : GameState :=
  let pendingDiscards : List PendingDiscard :=
    (game.players.filter (fun p => decide (7 < countResources p.resources))).map
      (fun p => ⟨p.id, Int.fdiv (countResources p.resources) 2, false⟩)
  let newTurnPhase : TurnPhase :=
    if 0 < pendingDiscards.length then .discard else .robber_move
  { game with turnPhase := newTurnPhase, pendingDiscards := pendingDiscards }

/-- `discardResources` -/
def discardResources (game : GameState) (playerId : String)
    (resources : ResourceCount) : GameState :=
  match game.players.find? (fun p => decide (p.id = playerId)) with
  | none => game
  | some _ =>
    match game.pendingDiscards.find? (fun pd => decide (pd.playerId = playerId)) with
    | none => game
    | some pending =>
      if pending.discarded then game
      else if countResources resources ≠ pending.amountToDiscard then game
      else
        let updatedPlayers := game.players.map fun p =>
          if p.id = playerId then
            { p with resources := subtractResources p.resources resources }
          else p
        let updatedPendingDiscards := game.pendingDiscards.map fun pd =>
          if pd.playerId = playerId then { pd with discarded := true } else pd
        let allDiscarded := updatedPendingDiscards.all (·.discarded)
        let newTurnPhase : TurnPhase := if allDiscarded then .robber_move else .discard
        { game with players := updatedPlayers,
                    pendingDiscards := updatedPendingDiscards,
                    turnPhase := newTurnPhase }

/-- `moveRobber` -/
def moveRobber (game : GameState) (newHexId : String) : GameState :=
  if newHexId = game.board.robberHexId then game
  else if ¬ game.board.hexes.any (fun h => decide (h.id = newHexId)) then game
  else
    { game with board := { game.board with robberHexId := newHexId },
                turnPhase := .robber_steal }

/-- `Object.entries(victim.resources)` in insertion order. -/
def resourceEntries (r : ResourceCount) : List (Resource × Int) :=
  [(.brick, r.brick), (.lumber, r.lumber), (.ore, r.ore), (.grain, r.grain), (.wool, r.wool)]

/-- `stealResource`; `randIdx` stands for
`Math.floor(Math.random() * availableResources.length)`. -/
def stealResource (game : GameState) (thiefId victimId : String) (randIdx : Nat) :
    GameState × Option Resource :=
  match game.players.find? (fun p => decide (p.id = victimId)) with
  | none => ({ game with turnPhase := .main }, none)
  | some victim =>
    if countResources victim.resources = 0 then
      ({ game with turnPhase := .main }, none)
    else
      let availableResources : List Resource :=
        (resourceEntries victim.resources).foldl
          (fun acc e => acc ++ List.replicate e.2.toNat e.1) []
      match availableResources.get? randIdx with
      | none => ({ game with turnPhase := .main }, none)
      | some stolenResource =>
        let one := addOneResource createEmptyResources stolenResource 1
        let updatedPlayers := game.players.map fun p =>
          if p.id = thiefId then
            { p with resources := addResources p.resources one }
          else if p.id = victimId then
            { p with resources := subtractResources p.resources one }
          else p
        ({ game with players := updatedPlayers, turnPhase := .main }, some stolenResource)

/-- `canPlaceSettlement` — note the source's own TODOs: the distance rule
and the road-connectivity rule are not implemented, and no caller invokes
this function. -/
def canPlaceSettlement (game : GameState) (playerId vertexId : String)
    (isSetupPhase : Bool := false) : Bool :=
  if game.board.buildings.any (fun b => decide (b.vertexId = vertexId)) then false
  else if isSetupPhase then true
  else
    match game.players.find? (fun p => decide (p.id = playerId)) with
    | none => false
    | some player => canAfford player.resources settlementCost

/-- `placeSettlement` — places unconditionally (no occupancy, distance or
affordability check). -/
def placeSettlement (game : GameState) (playerId vertexId : String) : GameState :=
  match game.players.find? (fun p => decide (p.id = playerId)) with
  | none => game
  | some _ =>
    let isSetupPhase : Bool :=
      decide (game.phase = .setup_first ∨ game.phase = .setup_second)
    let updatedPlayers := game.players.map fun p =>
      if p.id = playerId then
        { p with
          resources := if isSetupPhase then p.resources
                       else subtractResources p.resources settlementCost,
          settlements := p.settlements ++ [vertexId],
          publicVictoryPoints := p.publicVictoryPoints + 1 }
      else p
    let updatedBoard :=
      { game.board with
        buildings := game.board.buildings ++ [⟨vertexId, playerId, .settlement⟩] }
    { game with players := updatedPlayers, board := updatedBoard }

/-- `upgradeToCity` -/
def upgradeToCity (game : GameState) (playerId vertexId : String) : GameState :=
  match game.players.find? (fun p => decide (p.id = playerId)) with
  | none => game
  | some player =>
    match game.board.buildings.findIdx? (fun b =>
        decide (b.vertexId = vertexId ∧ b.playerId = playerId ∧ b.type = .settlement)) with
    | none => game
    | some buildingIndex =>
      if ¬ canAfford player.resources cityCost then game
      else
        let updatedPlayers := game.players.map fun p =>
          if p.id = playerId then
            { p with resources := subtractResources p.resources cityCost,
                     settlements := p.settlements.filter (fun s => decide (s ≠ vertexId)),
                     cities := p.cities ++ [vertexId],
                     publicVictoryPoints := p.publicVictoryPoints + 1 }
          else p
        let updatedBuildings := game.board.buildings.mapIdx fun i b =>
          if i = buildingIndex then { b with type := .city } else b
        { game with players := updatedPlayers,
                    board := { game.board with buildings := updatedBuildings } }

/-- `placeRoad` -/
def placeRoad (game : GameState) (playerId edgeId : String) : GameState :=
  match game.players.find? (fun p => decide (p.id = playerId)) with
  | none => game
  | some _ =>
    let isSetupPhase : Bool :=
      decide (game.phase = .setup_first ∨ game.phase = .setup_second)
    let isRoadBuilding : Bool := decide (game.turnPhase = .road_building)
    if game.board.roads.any (fun r => decide (r.edgeId = edgeId)) then game
    else
      let updatedPlayers := game.players.map fun p =>
        if p.id = playerId then
          { p with
            resources := if isSetupPhase || isRoadBuilding then p.resources
                         else subtractResources p.resources roadCost,
            roads := p.roads ++ [edgeId] }
        else p
      let updatedBoard :=
        { game.board with roads := game.board.roads ++ [⟨edgeId, playerId⟩] }
      let updatedGame :=
        { game with players := updatedPlayers, board := updatedBoard }
      if isRoadBuilding then
        let roadsPlaced := game.roadBuildingRoadsPlaced + 1
        if 2 ≤ roadsPlaced then
          { updatedGame with turnPhase := .main, roadBuildingRoadsPlaced := 0 }
        else { updatedGame with roadBuildingRoadsPlaced := roadsPlaced }
      else updatedGame

/-- `updateLongestRoad` — the source carries a TODO ("Implement proper
longest road calculation. For now, just count roads"): it compares each
player's raw `roads.length` against the stored length, ignoring adjacency,
paths and opponent blocking entirely. -/
def updateLongestRoad (game : GameState) : GameState :=
  let scan := game.players.foldl
    (fun (st : Option String × Int) player =>
      if 5 ≤ (player.roads.length : Int) ∧ st.2 < (player.roads.length : Int) then
        (some player.id, (player.roads.length : Int))
      else st)
    (none, game.longestRoadLength)
  let longestPlayer := scan.1
  let longestLength := scan.2
  if longestPlayer ≠ game.longestRoadHolder then
    let updatedPlayers := game.players.map fun p =>
      let hadLongestRoad : Bool := decide (game.longestRoadHolder = some p.id)
      let hasLongestRoad : Bool := decide (longestPlayer = some p.id)
      if hadLongestRoad = hasLongestRoad then p
      else
        { p with hasLongestRoad := hasLongestRoad,
                 publicVictoryPoints :=
                   p.publicVictoryPoints + (if hasLongestRoad then 2 else -2) }
    { game with players := updatedPlayers, longestRoadHolder := longestPlayer,
                longestRoadLength := longestLength }
  else game

/-- `updateLargestArmy` -/
def updateLargestArmy (game : GameState) : GameState :=
  let scan := game.players.foldl
    (fun (st : Option String × Int) player =>
      if 3 ≤ player.knightsPlayed ∧ st.2 < player.knightsPlayed then
        (some player.id, player.knightsPlayed)
      else st)
    (none, game.largestArmySize)
  let largestPlayer := scan.1
  let largestSize := scan.2
  if largestPlayer ≠ game.largestArmyHolder then
    let updatedPlayers := game.players.map fun p =>
      let hadLargestArmy : Bool := decide (game.largestArmyHolder = some p.id)
      let hasLargestArmy : Bool := decide (largestPlayer = some p.id)
      if hadLargestArmy = hasLargestArmy then p
      else
        { p with hasLargestArmy := hasLargestArmy,
                 publicVictoryPoints :=
                   p.publicVictoryPoints + (if hasLargestArmy then 2 else -2) }
    { game with players := updatedPlayers, largestArmyHolder := largestPlayer,
                largestArmySize := largestSize }
  else game

/-- `checkWinner`: the first player with total VP ≥ 10 wins; `now` stands
for `Date.now()`. -/
def checkWinner (game : GameState) (now : Int) : GameState :=
  match game.players.find?
      (fun p => decide (VICTORY_POINTS_TO_WIN ≤ calculateTotalVictoryPoints p)) with
  | some player =>
    { game with status := .finished, phase := .finished,
                winnerId := some player.id, finishedAt := some now }
  | none => game

/-- `endTurn` (the `% turnOrder.length` assumes a non-empty turn order,
which holds for every created game). -/
def endTurn (game : GameState) : GameState :=
  let nextPlayerIndex := (game.currentPlayerIndex + 1) % game.turnOrder.length
  let isNewRound := nextPlayerIndex = 0
  { game with currentPlayerIndex := nextPlayerIndex,
              turnNumber := if isNewRound then game.turnNumber + 1 else game.turnNumber,
              turnPhase := .pre_roll, lastDiceRoll := none }

/-- The fixed 25-entry card-type array inside `buyDevCard`. -/
def cardTypes : List DevCardType :=
  [.knight, .knight, .knight, .knight, .knight,
   .knight, .knight, .knight, .knight, .knight,
   .knight, .knight, .knight, .knight,
   .victory_point, .victory_point, .victory_point, .victory_point, .victory_point,
   .road_building, .road_building,
   .year_of_plenty, .year_of_plenty,
   .monopoly, .monopoly]

/-- `buyDevCard`; `cardIdx` stands for `Math.floor(Math.random() * 25)`
(always `< 25` at run time) and `cardId` for the generated id string.  The
type is looked up in the fixed array on every purchase while only the deck
counter shrinks — draws are with replacement. -/
def buyDevCard (game : GameState) (playerId : String) (cardIdx : Nat)
    (cardId : String) : GameState :=
  match game.players.find? (fun p => decide (p.id = playerId)) with
  | none => game
  | some player =>
    if ¬ canAfford player.resources devCardCost then game
    else if game.devCardDeckCount ≤ 0 then game
    else
      let cardType := cardTypes.getD cardIdx .knight
      let updatedPlayers := game.players.map fun p =>
        if p.id = playerId then
          { p with resources := subtractResources p.resources devCardCost,
                   devCards := p.devCards ++ [⟨cardId, cardType, game.turnNumber, false⟩] }
        else p
      { game with players := updatedPlayers,
                  devCardDeckCount := game.devCardDeckCount - 1 }

/-! ## Command handlers (server GameManager)

The manager holds the registry `activeGames : Map<code, GameState>`; all
handlers operate on one game code, so the registry slice a handler can see
is modelled as `Option GameState` (the entry under that code, if any).
Each handler returns the entry after the call together with the
`{success, error?, ...}` result object, modelled as `Except`. -/

/-- JS record lookup `obj[k]`. -/
def jsRecordGet {α : Type} (m : List (String × α)) (k : String) : Option α :=
  (m.find? (fun e => decide (e.1 = k))).map (·.2)

/-- JS object spread `{...obj, [k]: v}`: replace in place or append. -/
def jsRecordSet {α : Type} (m : List (String × α)) (k : String) (v : α) :
    List (String × α) :=
  if m.any (fun e => decide (e.1 = k)) then
    m.map (fun e => if e.1 = k then (k, v) else e)
  else m ++ [(k, v)]

/-- `getCurrentPlayer` (manager version): `turnOrder[i] ?? turnOrder[0] ?? ''`. -/
def getCurrentPlayer (game : GameState) : String :=
  match game.turnOrder.get? game.currentPlayerIndex with
  | some pid => pid
  | none => (game.turnOrder.get? 0).getD ""

/-- `isPlayerTurn` -/
def isPlayerTurn (game : GameState) (playerId : String) : Bool :=
  decide (getCurrentPlayer game = playerId)

/-- The fields of the result objects the handlers return; unset fields keep
their defaults. -/
structure HandlerResult where
  store : Option GameState
  result : Except String GameState
  distributions : List (String × ResourceCount) := []
  needsDiscard : Bool := false
  allDiscarded : Bool := false
  allRolled : Bool := false
  nextPlayerId : Option String := none
  stolenResource : Option Resource := none
deriving Repr

/-- `handleRollForOrder`; `dice` stands for the `rollDice()` outcome. -/
def handleRollForOrder (store : Option GameState) (playerId : String)
    (dice : Int × Int) : HandlerResult :=
  match store with
  | none => { store := none, result := .error "Game not found" }
  | some game =>
    if game.phase ≠ .roll_for_order then
      { store := some game, result := .error "Not in roll for order phase" }
    else
      match game.rollForOrderState with
      | none => { store := some game, result := .error "Invalid game state" }
      | some st =>
        if game.turnOrder.get? st.currentRollerIndex ≠ some playerId then
          { store := some game, result := .error "Not your turn to roll" }
        else if (jsRecordGet st.rolls playerId).isSome then
          { store := some game, result := .error "You already rolled" }
        else
          let total := dice.1 + dice.2
          let newRolls := jsRecordSet st.rolls playerId total
          let nextRollerIndex := st.currentRollerIndex + 1
          let allRolled := decide (game.players.length ≤ nextRollerIndex)
          if allRolled then
            let sortedPlayers := game.players.mergeSort (fun a b =>
              decide ((jsRecordGet newRolls b.id).getD 0 ≤ (jsRecordGet newRolls a.id).getD 0))
            let newTurnOrder := sortedPlayers.map (·.id)
            let updatedGame :=
              { game with phase := .setup_first, turnOrder := newTurnOrder,
                          currentPlayerIndex := 0,
                          rollForOrderState := some ⟨newRolls, nextRollerIndex, true⟩,
                          setupState := some ⟨1, .settlement, []⟩ }
            { store := some updatedGame, result := .ok updatedGame, allRolled := true }
          else
            let updatedGame :=
              { game with rollForOrderState := some ⟨newRolls, nextRollerIndex, false⟩ }
            { store := some updatedGame, result := .ok updatedGame }

/-- `handleDiceRoll` -/
def handleDiceRoll (store : Option GameState) (playerId : String)
    (dice : Int × Int) : HandlerResult :=
  match store with
  | none => { store := none, result := .error "Game not found" }
  | some game =>
    if ¬ isPlayerTurn game playerId then
      { store := some game, result := .error "Not your turn" }
    else if game.turnPhase ≠ .pre_roll then
      { store := some game, result := .error "Cannot roll dice now" }
    else
      let total := dice.1 + dice.2
      let g1 := { game with lastDiceRoll := some dice }
      if total = 7 then
        let updatedGame := handleRobber g1
        { store := some updatedGame, result := .ok updatedGame,
          needsDiscard := decide (updatedGame.turnPhase = .discard) }
      else
        let distributions := distributeResources g1 total
        let u := applyResourceDistributions g1 distributions
        let updatedGame := { u with turnPhase := .main }
        { store := some updatedGame, result := .ok updatedGame,
          distributions := distributions }

/-- `handleDiscard` -/
def handleDiscard (store : Option GameState) (playerId : String)
    (resources : ResourceCount) : HandlerResult :=
  match store with
  | none => { store := none, result := .error "Game not found" }
  | some game =>
    if game.turnPhase ≠ .discard then
      { store := some game, result := .error "Not in discard phase" }
    else
      let updatedGame := discardResources game playerId resources
      { store := some updatedGame, result := .ok updatedGame,
        allDiscarded := decide (updatedGame.turnPhase ≠ .discard) }

/-- `handleMoveRobber` -/
def handleMoveRobber (store : Option GameState) (playerId hexId : String) :
    HandlerResult :=
  match store with
  | none => { store := none, result := .error "Game not found" }
  | some game =>
    if ¬ isPlayerTurn game playerId then
      { store := some game, result := .error "Not your turn" }
    else if game.turnPhase ≠ .robber_move then
      { store := some game, result := .error "Cannot move robber now" }
    else
      let updatedGame := moveRobber game hexId
      { store := some updatedGame, result := .ok updatedGame }

/-- `handleSteal` -/
def handleSteal (store : Option GameState) (thiefId victimId : String)
    (stealIdx : Nat) : HandlerResult :=
  match store with
  | none => { store := none, result := .error "Game not found" }
  | some game =>
    if ¬ isPlayerTurn game thiefId then
      { store := some game, result := .error "Not your turn" }
    else if game.turnPhase ≠ .robber_steal then
      { store := some game, result := .error "Cannot steal now" }
    else
      let out := stealResource game thiefId victimId stealIdx
      { store := some out.1, result := .ok out.1, stolenResource := out.2 }

/-- `handleBuildSettlement`; `now` stands for the `Date.now()` inside
`checkWinner`. -/
def handleBuildSettlement (store : Option GameState) (playerId vertexId : String)
    (now : Int) : HandlerResult :=
  match store with
  | none => { store := none, result := .error "Game not found" }
  | some game =>
    if ¬ isPlayerTurn game playerId then
      { store := some game, result := .error "Not your turn" }
    else
      let isSetup : Bool := decide (game.phase = .setup_first ∨ game.phase = .setup_second)
      if ¬ isSetup ∧ game.turnPhase ≠ .main then
        { store := some game, result := .error "Cannot build now" }
      else
        let g1 := placeSettlement game playerId vertexId
        let g2 :=
          if isSetup then
            match game.setupState with
            | some ss =>
              { g1 with setupState := some (SetupPhaseState.mk ss.currentRound
                  PlacementType.road
                  (jsRecordSet ss.settlementsNeedingRoads playerId vertexId)) }
            | none => g1
          else g1
        let g3 := updateLongestRoad g2
        let updatedGame := checkWinner g3 now
        { store := some updatedGame, result := .ok updatedGame }

/-- `handleBuildCity` -/
def handleBuildCity (store : Option GameState) (playerId vertexId : String)
    (now : Int) : HandlerResult :=
  match store with
  | none => { store := none, result := .error "Game not found" }
  | some game =>
    if ¬ isPlayerTurn game playerId then
      { store := some game, result := .error "Not your turn" }
    else if game.turnPhase ≠ .main then
      { store := some game, result := .error "Cannot build now" }
    else
      let g1 := upgradeToCity game playerId vertexId
      let updatedGame := checkWinner g1 now
      { store := some updatedGame, result := .ok updatedGame }

/-- `handleBuildRoad` — note: no `checkWinner` call on this path. -/
def handleBuildRoad (store : Option GameState) (playerId edgeId : String) :
    HandlerResult :=
  match store with
  | none => { store := none, result := .error "Game not found" }
  | some game =>
    if ¬ isPlayerTurn game playerId then
      { store := some game, result := .error "Not your turn" }
    else
      let isSetup : Bool := decide (game.phase = .setup_first ∨ game.phase = .setup_second)
      let isRoadBuilding : Bool := decide (game.turnPhase = .road_building)
      if ¬ isSetup ∧ ¬ isRoadBuilding ∧ game.turnPhase ≠ .main then
        { store := some game, result := .error "Cannot build road now" }
      else
        let g1 := placeRoad game playerId edgeId
        let g2 :=
          if isSetup then
            match game.setupState with
            | some ss =>
              let newSettlementsNeedingRoads :=
                ss.settlementsNeedingRoads.filter (fun e => decide (e.1 ≠ playerId))
              let len : Int := (game.turnOrder.length : Int)
              let nextPlayerIndex : Int :=
                Int.tmod ((game.currentPlayerIndex : Int) +
                  (if game.phase = .setup_second then -1 else 1)) len
              let isRoundComplete : Bool :=
                if game.phase = .setup_first then
                  decide (nextPlayerIndex = 0 ∧
                    (game.currentPlayerIndex : Int) = len - 1)
                else
                  decide (nextPlayerIndex = len - 1 ∧ game.currentPlayerIndex = 0)
              if isRoundComplete then
                if game.phase = .setup_first then
                  { g1 with phase := .setup_second,
                            currentPlayerIndex := game.turnOrder.length - 1,
                            setupState := some ⟨2, .settlement, []⟩ }
                else
                  { g1 with phase := .playing, currentPlayerIndex := 0,
                            turnPhase := .pre_roll, setupState := none }
              else
                { g1 with
                  currentPlayerIndex :=
                    if game.phase = .setup_second then
                      (game.currentPlayerIndex - 1 + game.turnOrder.length) %
                        game.turnOrder.length
                    else (game.currentPlayerIndex + 1) % game.turnOrder.length,
                  setupState := some
                    ⟨ss.currentRound, .settlement, newSettlementsNeedingRoads⟩ }
            | none => g1
          else g1
        let updatedGame := updateLongestRoad g2
        { store := some updatedGame, result := .ok updatedGame }

/-- `handleBuyDevCard` -/
def handleBuyDevCard (store : Option GameState) (playerId : String)
    (cardIdx : Nat) (cardId : String) (now : Int) : HandlerResult :=
  match store with
  | none => { store := none, result := .error "Game not found" }
  | some game =>
    if ¬ isPlayerTurn game playerId then
      { store := some game, result := .error "Not your turn" }
    else if game.turnPhase ≠ .main then
      { store := some game, result := .error "Cannot buy dev card now" }
    else
      let g1 := buyDevCard game playerId cardIdx cardId
      let g2 := updateLargestArmy g1
      let updatedGame := checkWinner g2 now
      { store := some updatedGame, result := .ok updatedGame }

/-- `handleEndTurn` -/
def handleEndTurn (store : Option GameState) (playerId : String) : HandlerResult :=
  match store with
  | none => { store := none, result := .error "Game not found" }
  | some game =>
    if ¬ isPlayerTurn game playerId then
      { store := some game, result := .error "Not your turn" }
    else if game.turnPhase ≠ .main then
      { store := some game, result := .error "Cannot end turn now" }
    else
      let updatedGame := endTurn game
      { store := some updatedGame, result := .ok updatedGame,
        nextPlayerId := some (getCurrentPlayer updatedGame) }

/-! ## Socket event layer (server socket game handlers)

Each incoming game event runs the matching handler and emits either a
single `build:error` back to the submitting socket, or a sequence of
broadcasts to the game room.  `mapped` models whether
`getPlayerGameCode(playerId)` resolves. -/

inductive EmitTarget where
  | submitter | room
deriving DecidableEq, Repr

structure Emission where
  target : EmitTarget
  event : String
deriving DecidableEq, Repr

/-- The game commands routed through the socket layer. -/
inductive GameCommand where
  | roll_for_order
  | roll_dice
  | discardCards (resources : ResourceCount)
  | move_robber (hexId : String)
  | steal_from (victimId : String)
  | build_settlement (vertexId : String)
  | build_city (vertexId : String)
  | build_road (edgeId : String)
  | buy_dev_card
  | end_turn
deriving DecidableEq, Repr

/-- The random/clock inputs a command may consume. -/
structure Entropy where
  dice : Int × Int
  stealIdx : Nat
  cardIdx : Nat
  cardId : String
  now : Int
deriving DecidableEq, Repr

/-- What one socket event leaves behind: the stored game entry, the
emissions in order, and whether the command failed. -/
structure SocketOutcome where
  store : Option GameState
  emissions : List Emission
  errored : Bool
deriving DecidableEq, Repr

/-- `handleGameEvents`, one event dispatch.  Error paths emit exactly one
`build:error` to the submitting socket (events that resolve no game code
return silently where the source does). -/
def handleGameEvents (mapped : Bool) (store : Option GameState)
    (playerId : String) (cmd : GameCommand) (ent : Entropy) : SocketOutcome :=
  match cmd with
  | .roll_for_order =>
    if ¬ mapped then ⟨store, [⟨.submitter, "build:error"⟩], true⟩
    else
      let r := handleRollForOrder store playerId ent.dice
      match r.result with
      | .error _ => ⟨r.store, [⟨.submitter, "build:error"⟩], true⟩
      | .ok _ =>
        ⟨r.store,
         [⟨.room, "game:roll_for_order_result"⟩, ⟨.room, "game:state"⟩] ++
           (if r.allRolled then [⟨.room, "game:phase_changed"⟩] else []),
         false⟩
  | .roll_dice =>
    if ¬ mapped then ⟨store, [⟨.submitter, "build:error"⟩], true⟩
    else
      let r := handleDiceRoll store playerId ent.dice
      match r.result with
      | .error _ => ⟨r.store, [⟨.submitter, "build:error"⟩], true⟩
      | .ok _ =>
        ⟨r.store,
         [⟨.room, "dice:rolled"⟩] ++
           (if 0 < r.distributions.length then
              [⟨.room, "dice:resources_distributed"⟩] else []) ++
           (if r.needsDiscard then [⟨.room, "robber:discard_required"⟩]
            else if ent.dice.1 + ent.dice.2 = 7 then [⟨.room, "robber:activated"⟩]
            else []) ++
           [⟨.room, "game:state"⟩],
         false⟩
  | .discardCards resources =>
    if ¬ mapped then ⟨store, [], true⟩
    else
      let r := handleDiscard store playerId resources
      match r.result with
      | .error _ => ⟨r.store, [⟨.submitter, "build:error"⟩], true⟩
      | .ok _ =>
        ⟨r.store,
         [⟨.room, "robber:player_discarded"⟩] ++
           (if r.allDiscarded ∧ r.store.isSome then [⟨.room, "robber:activated"⟩]
            else []) ++
           [⟨.room, "game:state"⟩],
         false⟩
  | .move_robber hexId =>
    if ¬ mapped then ⟨store, [], true⟩
    else
      let r := handleMoveRobber store playerId hexId
      match r.result with
      | .error _ => ⟨r.store, [⟨.submitter, "build:error"⟩], true⟩
      | .ok _ => ⟨r.store, [⟨.room, "robber:moved"⟩, ⟨.room, "game:state"⟩], false⟩
  | .steal_from victimId =>
    if ¬ mapped then ⟨store, [], true⟩
    else
      let r := handleSteal store playerId victimId ent.stealIdx
      match r.result with
      | .error _ => ⟨r.store, [⟨.submitter, "build:error"⟩], true⟩
      | .ok _ => ⟨r.store, [⟨.room, "robber:steal"⟩, ⟨.room, "game:state"⟩], false⟩
  | .build_settlement vertexId =>
    if ¬ mapped then ⟨store, [], true⟩
    else
      let r := handleBuildSettlement store playerId vertexId ent.now
      match r.result with
      | .error _ => ⟨r.store, [⟨.submitter, "build:error"⟩], true⟩
      | .ok g =>
        ⟨r.store,
         [⟨.room, "build:settlement_placed"⟩, ⟨.room, "game:state"⟩] ++
           (if g.winnerId.isSome then [⟨.room, "game:ended"⟩] else []),
         false⟩
  | .build_city vertexId =>
    if ¬ mapped then ⟨store, [], true⟩
    else
      let r := handleBuildCity store playerId vertexId ent.now
      match r.result with
      | .error _ => ⟨r.store, [⟨.submitter, "build:error"⟩], true⟩
      | .ok g =>
        ⟨r.store,
         [⟨.room, "build:city_placed"⟩, ⟨.room, "game:state"⟩] ++
           (if g.winnerId.isSome then [⟨.room, "game:ended"⟩] else []),
         false⟩
  | .build_road edgeId =>
    if ¬ mapped then ⟨store, [], true⟩
    else
      let r := handleBuildRoad store playerId edgeId
      match r.result with
      | .error _ => ⟨r.store, [⟨.submitter, "build:error"⟩], true⟩
      | .ok g =>
        ⟨r.store,
         [⟨.room, "build:road_placed"⟩, ⟨.room, "game:state"⟩] ++
           (if g.phase = .playing then [⟨.room, "game:phase_changed"⟩] else []),
         false⟩
  | .buy_dev_card =>
    if ¬ mapped then ⟨store, [], true⟩
    else
      let r := handleBuyDevCard store playerId ent.cardIdx ent.cardId ent.now
      match r.result with
      | .error _ => ⟨r.store, [⟨.submitter, "build:error"⟩], true⟩
      | .ok g =>
        ⟨r.store,
         [⟨.room, "devcard:purchased"⟩, ⟨.room, "game:state"⟩] ++
           (if g.winnerId.isSome then [⟨.room, "game:ended"⟩] else []),
         false⟩
  | .end_turn =>
    if ¬ mapped then ⟨store, [], true⟩
    else
      let r := handleEndTurn store playerId
      match r.result with
      | .error _ => ⟨r.store, [⟨.submitter, "build:error"⟩], true⟩
      | .ok _ => ⟨r.store, [⟨.room, "game:turn_changed"⟩, ⟨.room, "game:state"⟩], false⟩

/-! ## Concrete game fixtures used to evaluate the code -/

/-- A fresh player. -/
def basePlayer (id : String) : PlayerState := createPlayerState id id id "red"

/-- Scenario S1 board: a forest hex `hex_0_0` with token 8, a fields hex,
the robber elsewhere; player A has a settlement and player B a city on
vertices adjacent to `hex_0_0` (adjacency-format vertex ids, which contain
`hex_0_0` verbatim). -/
def gS1 : GameState :=
  { createGameState "game_TEST01" "TEST01" [basePlayer "A", basePlayer "B"]
      (Board.mk
        [⟨"hex_0_0", ⟨0, 0⟩, .forest, some 8⟩, ⟨"hex_1_0", ⟨1, 0⟩, .fields, some 5⟩]
        []
        [⟨"v_hex_0_-1_hex_0_0_hex_1_-1", "A", .settlement⟩,
         ⟨"v_hex_0_0_hex_1_-1_hex_1_0", "B", .city⟩]
        []
        "hex_0_-2") 0
    with phase := .playing, turnPhase := .pre_roll }

/-- Scenario S3 state: vertex `v_hex_0_0_hex_0_1_hex_1_0` already holds
B's settlement; it is A's turn in the main phase. -/
def gOcc : GameState :=
  { createGameState "game_TEST03" "TEST03" [basePlayer "A", basePlayer "B"]
      (Board.mk
        [⟨"hex_0_0", ⟨0, 0⟩, .forest, some 8⟩]
        []
        [⟨"v_hex_0_0_hex_0_1_hex_1_0", "B", .settlement⟩]
        []
        "hex_0_0") 0
    with phase := .playing, turnPhase := .main }

/-- A state in which player A owns five pairwise non-touching roads in five
different corners of the board (no two of these edges share a vertex, so
A's longest simple road path has length 1). -/
def gScatter : GameState :=
  { createGameState "game_TEST04" "TEST04"
      [{ basePlayer "A" with
           roads := ["e_hex_-2_0_hex_-2_1", "e_hex_2_-1_hex_2_0",
                     "e_hex_0_-2_hex_1_-2", "e_hex_-1_2_hex_0_2",
                     "e_hex_0_0_hex_1_0"] },
       basePlayer "B"]
      (Board.mk [] [] [] [] "") 0
    with phase := .playing, turnPhase := .main }

/-- A state in which A sits at 8 computed victory points (4 settlements +
2 cities) with 4 roads; building a fifth road grants the longest-road award
and lifts A to 10. -/
def gRoadWin : GameState :=
  { createGameState "game_TEST05" "TEST05"
      [{ basePlayer "A" with
           settlements := ["v1", "v2", "v3", "v4"],
           cities := ["c1", "c2"],
           roads := ["e1", "e2", "e3", "e4"] },
       basePlayer "B"]
      (Board.mk [] [] [] [⟨"e1", "A"⟩, ⟨"e2", "A"⟩, ⟨"e3", "A"⟩, ⟨"e4", "A"⟩] "") 0
    with phase := .playing, turnPhase := .main }

/-- A state in which A sits at 9 computed victory points (5 settlements +
2 cities) and affords a city: upgrading `s1` reaches 10. -/
def gCityWin : GameState :=
  { createGameState "game_TEST06" "TEST06"
      [{ basePlayer "A" with
           settlements := ["s1", "s2", "s3", "s4", "s5"],
           cities := ["c1", "c2"],
           resources := ⟨0, 0, 3, 2, 0⟩ },
       basePlayer "B"]
      (Board.mk [] [] [⟨"s1", "A", .settlement⟩] [] "") 0
    with phase := .playing, turnPhase := .main }

/-- The stored state `handleBuildCity` produces on `gCityWin`. -/
def gCityWinAfter : GameState := checkWinner (upgradeToCity gCityWin "A" "s1") 99

/-- A discard-phase state: A holds 8 bricks and owes 4 cards. -/
def gDiscard : GameState :=
  { createGameState "game_TEST07" "TEST07"
      [{ basePlayer "A" with resources := ⟨8, 0, 0, 0, 0⟩ }, basePlayer "B"]
      (Board.mk [] [] [] [] "") 0
    with phase := .playing, turnPhase := .discard,
         pendingDiscards := [⟨"A", 4, false⟩] }

/-- The state after A's only pending discard is satisfied. -/
def gDiscardAfter : GameState := discardResources gDiscard "A" ⟨4, 0, 0, 0, 0⟩

/-- A state in which A holds 9 cards (owes 4 on a seven) and B exactly 7
(owes nothing). -/
def gSeven : GameState :=
  { createGameState "game_TEST08" "TEST08"
      [{ basePlayer "A" with resources := ⟨9, 0, 0, 0, 0⟩ },
       { basePlayer "B" with resources := ⟨7, 0, 0, 0, 0⟩ }]
      (Board.mk [] [] [] [] "") 0
    with phase := .playing, turnPhase := .pre_roll }

/-- `gSeven` after the robber fires. -/
def gSevenRobber : GameState := handleRobber gSeven

/-- Player A holding three dev-card purchases' worth of ore/grain/wool. -/
def pABuy : PlayerState := { basePlayer "A" with resources := ⟨0, 0, 3, 3, 3⟩ }

/-- A main-phase state in which A affords three dev cards. -/
def gBuy : GameState :=
  { createGameState "game_TEST09" "TEST09" [pABuy, basePlayer "B"]
      (Board.mk [] [] [] [] "") 0
    with phase := .playing, turnPhase := .main }

/-- `gBuy` after three purchases that each draw index 24 (`monopoly`). -/
def gBuy3 : GameState :=
  buyDevCard (buyDevCard (buyDevCard gBuy "A" 24 "c1") "A" 24 "c2") "A" 24 "c3"

/-- A plain two-player main-phase state. -/
def gMain : GameState :=
  { createGameState "game_TEST10" "TEST10" [basePlayer "A", basePlayer "B"]
      (Board.mk [⟨"hex_0_0", ⟨0, 0⟩, .desert, none⟩] [] [] [] "hex_0_0") 0
    with phase := .playing, turnPhase := .main }

/-- Default entropy for witness runs. -/
def entFix : Entropy := ⟨(1, 1), 0, 0, "card0", 0⟩

/-- The identity shuffle stream (every attempt sees the unshuffled
distributions). -/
def idStream : ShuffleStream :=
  ⟨fun _ => TERRAIN_DISTRIBUTION, fun _ => NUMBER_DISTRIBUTION, PORT_TYPES⟩

/-- Some pending discard is still unsatisfied. -/
def pendingUnsatisfied (g : GameState) : Bool :=
  g.pendingDiscards.any (fun pd => !pd.discarded)

/-- The amended discard invariant: in the `discard` turn-phase some entry of
`pendingDiscards` is still owed. -/
def discardPhaseInv (g : GameState) : Prop :=
  g.turnPhase = .discard → pendingUnsatisfied g = true

/-- Everything a successful end-turn leaves untouched: every field of the
game state except `currentPlayerIndex`, `turnNumber`, `turnPhase` and
`lastDiceRoll`. -/
def unchangedByEndTurn (g g' : GameState) : Prop :=
  g'.id = g.id ∧ g'.code = g.code ∧ g'.status = g.status ∧ g'.phase = g.phase ∧
  g'.board = g.board ∧ g'.players = g.players ∧ g'.turnOrder = g.turnOrder ∧
  g'.devCardDeckCount = g.devCardDeckCount ∧
  g'.rollForOrderState = g.rollForOrderState ∧ g'.setupState = g.setupState ∧
  g'.activeTrade = g.activeTrade ∧ g'.pendingDiscards = g.pendingDiscards ∧
  g'.roadBuildingRoadsPlaced = g.roadBuildingRoadsPlaced ∧
  g'.longestRoadHolder = g.longestRoadHolder ∧
  g'.longestRoadLength = g.longestRoadLength ∧
  g'.largestArmyHolder = g.largestArmyHolder ∧
  g'.largestArmySize = g.largestArmySize ∧ g'.winnerId = g.winnerId ∧
  g'.createdAt = g.createdAt ∧ g'.startedAt = g.startedAt ∧
  g'.finishedAt = g.finishedAt

/-! ## Theorems -/

/-- C1 [code_bug]: rolling an 8 on `gS1` must give A one lumber and B two,
but `distributeResources` returns the empty distribution — splitting the
vertex id on `_` fragments the embedded hex ids (`hex_0_0` becomes the
tokens `hex`, `0`, `0`), so `adjacentHexIds.includes('0_0')` can never hold
and no building is ever considered adjacent.  The turn-phase does become
`main`, and no resource count changes at all. -/
theorem distributeResources_always_empty :
    distributeResources { gS1 with lastDiceRoll := some (5, 3) } 8 = [] ∧
    (handleDiceRoll (some gS1) "A" (5, 3)).result.toOption.map
        (fun g => (g.turnPhase, g.players.map (·.resources))) =
      some (.main, [createEmptyResources, createEmptyResources]) := by
  constructor <;> rfl

/-- C3 [code_bug]: submitting `build:settlement` for the occupied vertex of
`gOcc` succeeds and stacks a second building on that vertex; the engine's
`canPlaceSettlement` (which would at least refuse the occupied vertex, and
whose distance rule is an unimplemented TODO) is never called by any
handler. -/
theorem build_settlement_ignores_occupancy :
    canPlaceSettlement gOcc "A" "v_hex_0_0_hex_0_1_hex_1_0" false = false ∧
    (handleBuildSettlement (some gOcc) "A" "v_hex_0_0_hex_0_1_hex_1_0" 0).result.toOption.map
        (fun g => (g.board.buildings.filter
          (fun b => decide (b.vertexId = "v_hex_0_0_hex_0_1_hex_1_0"))).length) =
      some 2 := by
  constructor <;> rfl

/-- C4 [code_bug]: `updateLongestRoad` awards the longest road to A for five
pairwise non-touching road segments (longest simple path 1): the source's
TODO stub compares `player.roads.length` to the stored length and ignores
connectivity, paths and opponent blocking altogether. -/
theorem longest_road_counts_disconnected_roads :
    (updateLongestRoad gScatter).longestRoadHolder = some "A" ∧
    (updateLongestRoad gScatter).longestRoadLength = 5 ∧
    ((updateLongestRoad gScatter).players.find? (fun p => decide (p.id = "A"))).map
        (fun p => (p.hasLongestRoad, p.publicVictoryPoints)) =
      some (true, 2) := by
  refine ⟨?_, ?_, ?_⟩ <;> rfl

/-- C2 counterexample: on `gRoadWin`, the successful road build flips the
longest-road award and lifts A to 10 total victory points, yet
`handleBuildRoad` never runs the winner check: `winnerId` stays `null` and
the game remains `playing`. -/
theorem road_build_win_not_detected :
    (handleBuildRoad (some gRoadWin) "A" "e5").result.toOption.map
        (fun g => (g.winnerId, g.status, g.phase,
          decide (∃ p ∈ g.players, 10 ≤ calculateTotalVictoryPoints p))) =
      some (none, .playing, .playing, true) := by
  rfl

/-- C6 counterexample: `gDiscard` satisfies the claimed invariant
(`pendingDiscards` non-empty and `turnPhase = discard`); the successful
discard command yields `turnPhase = robber_move` while the satisfied entry
stays in `pendingDiscards`, so `non-empty ⟺ discard` fails after a
successful command. -/
theorem discard_leaves_stale_pendings :
    (handleDiscard (some gDiscard) "A" ⟨4, 0, 0, 0, 0⟩).result = .ok gDiscardAfter ∧
    gDiscardAfter.turnPhase = .robber_move ∧
    gDiscardAfter.pendingDiscards = [⟨"A", 4, true⟩] ∧
    ¬ ((gDiscardAfter.pendingDiscards ≠ []) ↔ gDiscardAfter.turnPhase = .discard) := by
  refine ⟨rfl, rfl, rfl, ?_⟩
  decide

/-- C7 counterexample: three successful purchases on `gBuy`, each drawing
index 24 of the fixed card-type array, hand A three `monopoly` cards while
the canonical 25-card deck holds only two — the drawn multiset is not a
sub-multiset of the canonical deck, because the source redraws from the
same 25-entry array every time (with replacement). -/
theorem dev_card_draws_with_replacement :
    (cardTypes.filter (fun c => decide (c = DevCardType.monopoly))).length = 2 ∧
    (gBuy3.players.find? (fun p => decide (p.id = "A"))).map
        (fun p => ((p.devCards.filter (fun c => decide (c.type = DevCardType.monopoly))).length,
          p.devCards.map (·.played))) =
      some (3, [false, false, false]) ∧
    gBuy3.devCardDeckCount = 22 := by
  refine ⟨?_, ?_, ?_⟩ <;> rfl

/-- C10: a successful end-turn changes only `currentPlayerIndex`,
`turnNumber`, `turnPhase` and `lastDiceRoll`; the players (resources, dev
cards, settlements, cities, roads, achievement flags), the board (hexes,
buildings, roads, robber), `pendingDiscards`, `winnerId` and all remaining
fields are identical before and after. -/
theorem handleEndTurn_frame (store : Option GameState) (pid : String)
    (g g' : GameState) (hs : store = some g)
    (h : (handleEndTurn store pid).result = Except.ok g') :
    unchangedByEndTurn g g' := by
  subst hs
  unfold handleEndTurn at h
  by_cases h1 : isPlayerTurn g pid = true
  · by_cases h2 : g.turnPhase = TurnPhase.main
    · simp only [h1, h2, not_true_eq_false, ne_eq, not_false_eq_true,
        ite_true, ite_false, if_neg, if_pos, reduceIte] at h
      injection h with h
      subst h
      exact ⟨rfl, rfl, rfl, rfl, rfl, rfl, rfl, rfl, rfl, rfl, rfl, rfl, rfl,
        rfl, rfl, rfl, rfl, rfl, rfl, rfl, rfl⟩
    · simp [h1, h2] at h
  · simp [h1] at h

/-- C10 witness: ending the turn on `gMain` succeeds and leaves every
non-turn field unchanged. -/
theorem handleEndTurn_frame_witness :
    (handleEndTurn (some gMain) "A").result = Except.ok (endTurn gMain) ∧
    unchangedByEndTurn gMain (endTurn gMain) :=
  ⟨rfl, handleEndTurn_frame (some gMain) "A" gMain (endTurn gMain) rfl rfl⟩

/-! ### Engine frame lemmas -/

theorem placeSettlement_phase_pendings (g : GameState) (pid v : String) :
    (placeSettlement g pid v).turnPhase = g.turnPhase ∧
    (placeSettlement g pid v).pendingDiscards = g.pendingDiscards := by
  unfold placeSettlement
  cases g.players.find? (fun p => decide (p.id = pid)) <;> exact ⟨rfl, rfl⟩

theorem upgradeToCity_phase_pendings (g : GameState) (pid v : String) :
    (upgradeToCity g pid v).turnPhase = g.turnPhase ∧
    (upgradeToCity g pid v).pendingDiscards = g.pendingDiscards := by
  unfold upgradeToCity
  cases g.players.find? (fun p => decide (p.id = pid)) with
  | none => exact ⟨rfl, rfl⟩
  | some p =>
    cases g.board.buildings.findIdx? (fun b =>
        decide (b.vertexId = v ∧ b.playerId = pid ∧ b.type = .settlement)) with
    | none => exact ⟨rfl, rfl⟩
    | some i =>
      refine ⟨?_, ?_⟩ <;> (dsimp only; split <;> rfl)

theorem buyDevCard_phase_pendings (g : GameState) (pid : String) (idx : Nat)
    (cid : String) :
    (buyDevCard g pid idx cid).turnPhase = g.turnPhase ∧
    (buyDevCard g pid idx cid).pendingDiscards = g.pendingDiscards := by
  unfold buyDevCard
  cases g.players.find? (fun p => decide (p.id = pid)) with
  | none => exact ⟨rfl, rfl⟩
  | some p =>
    refine ⟨?_, ?_⟩ <;> (dsimp only; split <;> [rfl; (split <;> rfl)])

theorem updateLongestRoad_phase_pendings (g : GameState) :
    (updateLongestRoad g).turnPhase = g.turnPhase ∧
    (updateLongestRoad g).pendingDiscards = g.pendingDiscards := by
  unfold updateLongestRoad
  refine ⟨?_, ?_⟩ <;> (dsimp only; split <;> rfl)

theorem updateLargestArmy_phase_pendings (g : GameState) :
    (updateLargestArmy g).turnPhase = g.turnPhase ∧
    (updateLargestArmy g).pendingDiscards = g.pendingDiscards := by
  unfold updateLargestArmy
  refine ⟨?_, ?_⟩ <;> (dsimp only; split <;> rfl)

theorem checkWinner_phase_pendings (g : GameState) (now : Int) :
    (checkWinner g now).turnPhase = g.turnPhase ∧
    (checkWinner g now).pendingDiscards = g.pendingDiscards := by
  unfold checkWinner
  cases g.players.find?
      (fun p => decide (VICTORY_POINTS_TO_WIN ≤ calculateTotalVictoryPoints p)) <;>
    exact ⟨rfl, rfl⟩

theorem checkWinner_players (g : GameState) (now : Int) :
    (checkWinner g now).players = g.players := by
  unfold checkWinner
  cases g.players.find?
      (fun p => decide (VICTORY_POINTS_TO_WIN ≤ calculateTotalVictoryPoints p)) <;> rfl

/-! ### Discard-phase invariant lemmas -/

theorem handleRobber_inv (g : GameState) : discardPhaseInv (handleRobber g) := by
  unfold discardPhaseInv pendingUnsatisfied handleRobber
  intro hph
  dsimp only at hph ⊢
  split at hph
  next hl =>
    obtain ⟨x, hx⟩ := List.exists_mem_of_ne_nil _ (List.length_pos.mp hl)
    obtain ⟨p, hp, hfp⟩ := List.mem_map.mp hx
    refine List.any_eq_true.mpr ⟨x, hx, ?_⟩
    rw [← hfp]
    rfl
  next => cases hph

theorem discardResources_inv (g : GameState) (pid : String) (r : ResourceCount)
    (hpre : discardPhaseInv g) : discardPhaseInv (discardResources g pid r) := by
  unfold discardPhaseInv pendingUnsatisfied discardResources
  unfold discardPhaseInv pendingUnsatisfied at hpre
  cases g.players.find? (fun p => decide (p.id = pid)) with
  | none => exact hpre
  | some p =>
    cases g.pendingDiscards.find? (fun pd => decide (pd.playerId = pid)) with
    | none => exact hpre
    | some pending =>
      dsimp only
      split
      · exact hpre
      · split
        · exact hpre
        · intro hph
          dsimp only at hph
          split at hph
          next => cases hph
          next ha =>
            simp only [List.all_eq_true, not_forall] at ha
            obtain ⟨x, hx, hxd⟩ := ha
            exact List.any_eq_true.mpr ⟨x, hx, by simp at hxd; simp [hxd]⟩

theorem moveRobber_inv (g : GameState) (hexId : String)
    (hpre : discardPhaseInv g) : discardPhaseInv (moveRobber g hexId) := by
  unfold moveRobber
  split
  · exact hpre
  · split
    · exact hpre
    · intro hph
      simp at hph

theorem stealResource_turnPhase (g : GameState) (t v : String) (i : Nat) :
    (stealResource g t v i).1.turnPhase = TurnPhase.main := by
  unfold stealResource
  cases g.players.find? (fun p => decide (p.id = v)) with
  | none => rfl
  | some victim =>
    dsimp only
    split
    · rfl
    · cases ((resourceEntries victim.resources).foldl
          (fun acc e => acc ++ List.replicate e.2.toNat e.1) []).get? i <;> rfl

theorem discardPhaseInv_of_ne (g : GameState)
    (h : g.turnPhase ≠ TurnPhase.discard) : discardPhaseInv g :=
  fun hph => absurd hph h

theorem discardPhaseInv_congr (g g' : GameState)
    (hph : g'.turnPhase = g.turnPhase) (hpd : g'.pendingDiscards = g.pendingDiscards)
    (hpre : discardPhaseInv g) : discardPhaseInv g' := by
  unfold discardPhaseInv pendingUnsatisfied at *
  rw [hph, hpd]
  exact hpre

theorem placeSettlement_inv (g : GameState) (pid v : String)
    (h : discardPhaseInv g) : discardPhaseInv (placeSettlement g pid v) :=
  discardPhaseInv_congr g _ (placeSettlement_phase_pendings g pid v).1
    (placeSettlement_phase_pendings g pid v).2 h

theorem upgradeToCity_inv (g : GameState) (pid v : String)
    (h : discardPhaseInv g) : discardPhaseInv (upgradeToCity g pid v) :=
  discardPhaseInv_congr g _ (upgradeToCity_phase_pendings g pid v).1
    (upgradeToCity_phase_pendings g pid v).2 h

theorem buyDevCard_inv (g : GameState) (pid : String) (idx : Nat) (cid : String)
    (h : discardPhaseInv g) : discardPhaseInv (buyDevCard g pid idx cid) :=
  discardPhaseInv_congr g _ (buyDevCard_phase_pendings g pid idx cid).1
    (buyDevCard_phase_pendings g pid idx cid).2 h

theorem updateLongestRoad_inv (g : GameState)
    (h : discardPhaseInv g) : discardPhaseInv (updateLongestRoad g) :=
  discardPhaseInv_congr g _ (updateLongestRoad_phase_pendings g).1
    (updateLongestRoad_phase_pendings g).2 h

theorem updateLargestArmy_inv (g : GameState)
    (h : discardPhaseInv g) : discardPhaseInv (updateLargestArmy g) :=
  discardPhaseInv_congr g _ (updateLargestArmy_phase_pendings g).1
    (updateLargestArmy_phase_pendings g).2 h

theorem checkWinner_inv (g : GameState) (now : Int)
    (h : discardPhaseInv g) : discardPhaseInv (checkWinner g now) :=
  discardPhaseInv_congr g _ (checkWinner_phase_pendings g now).1
    (checkWinner_phase_pendings g now).2 h

theorem placeRoad_inv (g : GameState) (pid e : String)
    (hpre : discardPhaseInv g) : discardPhaseInv (placeRoad g pid e) := by
  unfold placeRoad
  cases g.players.find? (fun p => decide (p.id = pid)) with
  | none => exact hpre
  | some p =>
    dsimp only
    split
    · exact hpre
    · split
      · split
        · exact discardPhaseInv_of_ne _ (fun hph => TurnPhase.noConfusion hph)
        · exact discardPhaseInv_congr g _ rfl rfl hpre
      · exact discardPhaseInv_congr g _ rfl rfl hpre

/-! ### Per-handler invariant preservation -/

theorem handleRollForOrder_inv (store : Option GameState) (pid : String)
    (d : Int × Int) (hpre : ∀ g, store = some g → discardPhaseInv g) :
    ∀ g', (handleRollForOrder store pid d).store = some g' → discardPhaseInv g' := by
  intro g' h
  cases store with
  | none => exact absurd h (by simp [handleRollForOrder])
  | some g =>
    unfold handleRollForOrder at h
    dsimp only at h
    split at h
    · injection h with h; subst h; exact hpre g rfl
    · split at h
      · injection h with h; subst h; exact hpre g rfl
      · split at h
        · injection h with h; subst h; exact hpre g rfl
        · split at h
          · injection h with h; subst h; exact hpre g rfl
          · split at h
            · injection h with h; subst h
              exact discardPhaseInv_congr g _ rfl rfl (hpre g rfl)
            · injection h with h; subst h
              exact discardPhaseInv_congr g _ rfl rfl (hpre g rfl)

theorem handleDiceRoll_inv (store : Option GameState) (pid : String)
    (d : Int × Int) (hpre : ∀ g, store = some g → discardPhaseInv g) :
    ∀ g', (handleDiceRoll store pid d).store = some g' → discardPhaseInv g' := by
  intro g' h
  cases store with
  | none => exact absurd h (by simp [handleDiceRoll])
  | some g =>
    unfold handleDiceRoll at h
    dsimp only at h
    split at h
    · injection h with h; subst h; exact hpre g rfl
    · split at h
      · injection h with h; subst h; exact hpre g rfl
      · split at h
        · injection h with h; subst h; exact handleRobber_inv _
        · injection h with h; subst h
          exact discardPhaseInv_of_ne _ (fun hph => TurnPhase.noConfusion hph)

theorem handleDiscard_inv (store : Option GameState) (pid : String)
    (r : ResourceCount) (hpre : ∀ g, store = some g → discardPhaseInv g) :
    ∀ g', (handleDiscard store pid r).store = some g' → discardPhaseInv g' := by
  intro g' h
  cases store with
  | none => exact absurd h (by simp [handleDiscard])
  | some g =>
    unfold handleDiscard at h
    dsimp only at h
    split at h
    · injection h with h; subst h; exact hpre g rfl
    · injection h with h; subst h
      exact discardResources_inv g pid r (hpre g rfl)

theorem handleMoveRobber_inv (store : Option GameState) (pid hexId : String)
    (hpre : ∀ g, store = some g → discardPhaseInv g) :
    ∀ g', (handleMoveRobber store pid hexId).store = some g' → discardPhaseInv g' := by
  intro g' h
  cases store with
  | none => exact absurd h (by simp [handleMoveRobber])
  | some g =>
    unfold handleMoveRobber at h
    dsimp only at h
    split at h
    · injection h with h; subst h; exact hpre g rfl
    · split at h
      · injection h with h; subst h; exact hpre g rfl
      · injection h with h; subst h
        exact moveRobber_inv g hexId (hpre g rfl)

theorem handleSteal_inv (store : Option GameState) (thiefId victimId : String)
    (idx : Nat) (hpre : ∀ g, store = some g → discardPhaseInv g) :
    ∀ g', (handleSteal store thiefId victimId idx).store = some g' → discardPhaseInv g' := by
  intro g' h
  cases store with
  | none => exact absurd h (by simp [handleSteal])
  | some g =>
    unfold handleSteal at h
    dsimp only at h
    split at h
    · injection h with h; subst h; exact hpre g rfl
    · split at h
      · injection h with h; subst h; exact hpre g rfl
      · injection h with h; subst h
        refine discardPhaseInv_of_ne _ ?_
        rw [stealResource_turnPhase]
        decide

theorem handleBuildSettlement_inv (store : Option GameState) (pid v : String)
    (now : Int) (hpre : ∀ g, store = some g → discardPhaseInv g) :
    ∀ g', (handleBuildSettlement store pid v now).store = some g' → discardPhaseInv g' := by
  intro g' h
  cases store with
  | none => exact absurd h (by simp [handleBuildSettlement])
  | some g =>
    unfold handleBuildSettlement at h
    dsimp only at h
    split at h
    · injection h with h; subst h; exact hpre g rfl
    · split at h
      · injection h with h; subst h; exact hpre g rfl
      · injection h with h; subst h
        refine checkWinner_inv _ now (updateLongestRoad_inv _ ?_)
        dsimp only
        split
        · split
          · exact discardPhaseInv_congr _ _ rfl rfl
              (placeSettlement_inv g pid v (hpre g rfl))
          · exact placeSettlement_inv g pid v (hpre g rfl)
        · exact placeSettlement_inv g pid v (hpre g rfl)

theorem handleBuildCity_inv (store : Option GameState) (pid v : String)
    (now : Int) (hpre : ∀ g, store = some g → discardPhaseInv g) :
    ∀ g', (handleBuildCity store pid v now).store = some g' → discardPhaseInv g' := by
  intro g' h
  cases store with
  | none => exact absurd h (by simp [handleBuildCity])
  | some g =>
    unfold handleBuildCity at h
    dsimp only at h
    split at h
    · injection h with h; subst h; exact hpre g rfl
    · split at h
      · injection h with h; subst h; exact hpre g rfl
      · injection h with h; subst h
        exact checkWinner_inv _ now (upgradeToCity_inv g pid v (hpre g rfl))

theorem handleBuildRoad_inv (store : Option GameState) (pid e : String)
    (hpre : ∀ g, store = some g → discardPhaseInv g) :
    ∀ g', (handleBuildRoad store pid e).store = some g' → discardPhaseInv g' := by
  intro g' h
  cases store with
  | none => exact absurd h (by simp [handleBuildRoad])
  | some g =>
    unfold handleBuildRoad at h
    dsimp only at h
    split at h
    · injection h with h; subst h; exact hpre g rfl
    · split at h
      · injection h with h; subst h; exact hpre g rfl
      · injection h with h; subst h
        refine updateLongestRoad_inv _ ?_
        have hpr := placeRoad_inv g pid e (hpre g rfl)
        repeat' split
        all_goals
          first
            | exact hpr
            | exact discardPhaseInv_congr _ _ rfl rfl hpr
            | exact discardPhaseInv_of_ne _ (fun hph => TurnPhase.noConfusion hph)

theorem handleBuyDevCard_inv (store : Option GameState) (pid : String)
    (idx : Nat) (cid : String) (now : Int)
    (hpre : ∀ g, store = some g → discardPhaseInv g) :
    ∀ g', (handleBuyDevCard store pid idx cid now).store = some g' → discardPhaseInv g' := by
  intro g' h
  cases store with
  | none => exact absurd h (by simp [handleBuyDevCard])
  | some g =>
    unfold handleBuyDevCard at h
    dsimp only at h
    split at h
    · injection h with h; subst h; exact hpre g rfl
    · split at h
      · injection h with h; subst h; exact hpre g rfl
      · injection h with h; subst h
        exact checkWinner_inv _ now
          (updateLargestArmy_inv _ (buyDevCard_inv g pid idx cid (hpre g rfl)))

theorem handleEndTurn_inv (store : Option GameState) (pid : String)
    (hpre : ∀ g, store = some g → discardPhaseInv g) :
    ∀ g', (handleEndTurn store pid).store = some g' → discardPhaseInv g' := by
  intro g' h
  cases store with
  | none => exact absurd h (by simp [handleEndTurn])
  | some g =>
    unfold handleEndTurn at h
    dsimp only at h
    split at h
    · injection h with h; subst h; exact hpre g rfl
    · split at h
      · injection h with h; subst h; exact hpre g rfl
      · injection h with h; subst h
        exact discardPhaseInv_of_ne _ (fun hph => TurnPhase.noConfusion hph)

/-- C6 [amended]: the direction of the invariant the code actually keeps.
After any socket game command, a state in the stored slot whose turn-phase
is `discard` has an entry of `pendingDiscards` that is still owed
(`discarded = false`); the converse fails because satisfied entries are
never removed from the list (see the counterexample). -/
theorem discard_phase_invariant_preserved (mapped : Bool)
    (store : Option GameState) (pid : String) (cmd : GameCommand) (ent : Entropy)
    (hpre : ∀ g, store = some g → discardPhaseInv g) :
    ∀ g', (handleGameEvents mapped store pid cmd ent).store = some g' →
      discardPhaseInv g' := by
  intro g' h
  unfold handleGameEvents at h
  cases cmd with
  | roll_for_order =>
    dsimp only at h
    split at h
    · exact hpre g' h
    · split at h <;> exact handleRollForOrder_inv store pid ent.dice hpre g' h
  | roll_dice =>
    dsimp only at h
    split at h
    · exact hpre g' h
    · split at h <;> exact handleDiceRoll_inv store pid ent.dice hpre g' h
  | discardCards r =>
    dsimp only at h
    split at h
    · exact hpre g' h
    · split at h <;> exact handleDiscard_inv store pid r hpre g' h
  | move_robber hexId =>
    dsimp only at h
    split at h
    · exact hpre g' h
    · split at h <;> exact handleMoveRobber_inv store pid hexId hpre g' h
  | steal_from victimId =>
    dsimp only at h
    split at h
    · exact hpre g' h
    · split at h <;> exact handleSteal_inv store pid victimId ent.stealIdx hpre g' h
  | build_settlement v =>
    dsimp only at h
    split at h
    · exact hpre g' h
    · split at h <;> exact handleBuildSettlement_inv store pid v ent.now hpre g' h
  | build_city v =>
    dsimp only at h
    split at h
    · exact hpre g' h
    · split at h <;> exact handleBuildCity_inv store pid v ent.now hpre g' h
  | build_road e =>
    dsimp only at h
    split at h
    · exact hpre g' h
    · split at h <;> exact handleBuildRoad_inv store pid e hpre g' h
  | buy_dev_card =>
    dsimp only at h
    split at h
    · exact hpre g' h
    · split at h <;>
        exact handleBuyDevCard_inv store pid ent.cardIdx ent.cardId ent.now hpre g' h
  | end_turn =>
    dsimp only at h
    split at h
    · exact hpre g' h
    · split at h <;> exact handleEndTurn_inv store pid hpre g' h

/-- C6 [amended] witness: the invariant holds of the stored state after the
concrete discard command on `gDiscard`. -/
theorem discard_phase_invariant_witness :
    (handleGameEvents true (some gDiscard) "A"
        (GameCommand.discardCards ⟨4, 0, 0, 0, 0⟩) entFix).store = some gDiscardAfter ∧
    discardPhaseInv gDiscardAfter :=
  ⟨rfl,
   discard_phase_invariant_preserved true (some gDiscard) "A"
     (GameCommand.discardCards ⟨4, 0, 0, 0, 0⟩) entFix
     (fun g hg => by cases hg; intro hph; decide) gDiscardAfter rfl⟩

/-! ### Handler store/result case analyses -/

theorem handleRollForOrder_store_cases (store : Option GameState) (pid : String)
    (d : Int × Int) :
    (handleRollForOrder store pid d).store = store ∨
    ∃ g', (handleRollForOrder store pid d).result = Except.ok g' := by
  cases store with
  | none => exact Or.inl rfl
  | some g =>
    unfold handleRollForOrder
    dsimp only
    repeat' split
    all_goals first
      | exact Or.inl rfl
      | exact Or.inr ⟨_, rfl⟩

theorem handleDiceRoll_store_cases (store : Option GameState) (pid : String)
    (d : Int × Int) :
    (handleDiceRoll store pid d).store = store ∨
    ∃ g', (handleDiceRoll store pid d).result = Except.ok g' := by
  cases store with
  | none => exact Or.inl rfl
  | some g =>
    unfold handleDiceRoll
    dsimp only
    repeat' split
    all_goals first
      | exact Or.inl rfl
      | exact Or.inr ⟨_, rfl⟩

theorem handleDiscard_store_cases (store : Option GameState) (pid : String)
    (r : ResourceCount) :
    (handleDiscard store pid r).store = store ∨
    ∃ g', (handleDiscard store pid r).result = Except.ok g' := by
  cases store with
  | none => exact Or.inl rfl
  | some g =>
    unfold handleDiscard
    dsimp only
    repeat' split
    all_goals first
      | exact Or.inl rfl
      | exact Or.inr ⟨_, rfl⟩

theorem handleMoveRobber_store_cases (store : Option GameState) (pid hexId : String) :
    (handleMoveRobber store pid hexId).store = store ∨
    ∃ g', (handleMoveRobber store pid hexId).result = Except.ok g' := by
  cases store with
  | none => exact Or.inl rfl
  | some g =>
    unfold handleMoveRobber
    dsimp only
    repeat' split
    all_goals first
      | exact Or.inl rfl
      | exact Or.inr ⟨_, rfl⟩

theorem handleSteal_store_cases (store : Option GameState) (t v : String) (i : Nat) :
    (handleSteal store t v i).store = store ∨
    ∃ g', (handleSteal store t v i).result = Except.ok g' := by
  cases store with
  | none => exact Or.inl rfl
  | some g =>
    unfold handleSteal
    dsimp only
    repeat' split
    all_goals first
      | exact Or.inl rfl
      | exact Or.inr ⟨_, rfl⟩

theorem handleBuildSettlement_store_cases (store : Option GameState)
    (pid v : String) (now : Int) :
    (handleBuildSettlement store pid v now).store = store ∨
    ∃ g', (handleBuildSettlement store pid v now).result = Except.ok g' := by
  cases store with
  | none => exact Or.inl rfl
  | some g =>
    unfold handleBuildSettlement
    dsimp only
    repeat' split
    all_goals first
      | exact Or.inl rfl
      | exact Or.inr ⟨_, rfl⟩

theorem handleBuildCity_store_cases (store : Option GameState)
    (pid v : String) (now : Int) :
    (handleBuildCity store pid v now).store = store ∨
    ∃ g', (handleBuildCity store pid v now).result = Except.ok g' := by
  cases store with
  | none => exact Or.inl rfl
  | some g =>
    unfold handleBuildCity
    dsimp only
    repeat' split
    all_goals first
      | exact Or.inl rfl
      | exact Or.inr ⟨_, rfl⟩

theorem handleBuildRoad_store_cases (store : Option GameState) (pid e : String) :
    (handleBuildRoad store pid e).store = store ∨
    ∃ g', (handleBuildRoad store pid e).result = Except.ok g' := by
  cases store with
  | none => exact Or.inl rfl
  | some g =>
    unfold handleBuildRoad
    dsimp only
    repeat' split
    all_goals first
      | exact Or.inl rfl
      | exact Or.inr ⟨_, rfl⟩

theorem handleBuyDevCard_store_cases (store : Option GameState) (pid : String)
    (idx : Nat) (cid : String) (now : Int) :
    (handleBuyDevCard store pid idx cid now).store = store ∨
    ∃ g', (handleBuyDevCard store pid idx cid now).result = Except.ok g' := by
  cases store with
  | none => exact Or.inl rfl
  | some g =>
    unfold handleBuyDevCard
    dsimp only
    repeat' split
    all_goals first
      | exact Or.inl rfl
      | exact Or.inr ⟨_, rfl⟩

theorem handleEndTurn_store_cases (store : Option GameState) (pid : String) :
    (handleEndTurn store pid).store = store ∨
    ∃ g', (handleEndTurn store pid).result = Except.ok g' := by
  cases store with
  | none => exact Or.inl rfl
  | some g =>
    unfold handleEndTurn
    dsimp only
    repeat' split
    all_goals first
      | exact Or.inl rfl
      | exact Or.inr ⟨_, rfl⟩

/-- C8: for every game command, if the command returns an error then the
stored game state after the command is exactly the state before it, and the
only emission is the `build:error` sent to the submitting socket (an event
whose player resolves no game emits nothing or the same single error). -/
theorem errors_are_local (mapped : Bool) (store : Option GameState)
    (pid : String) (cmd : GameCommand) (ent : Entropy)
    (h : (handleGameEvents mapped store pid cmd ent).errored = true) :
    (handleGameEvents mapped store pid cmd ent).store = store ∧
    ∀ em ∈ (handleGameEvents mapped store pid cmd ent).emissions,
      em.target = EmitTarget.submitter := by
  cases cmd with
  | roll_for_order =>
    unfold handleGameEvents at h ⊢
    dsimp only at h ⊢
    by_cases hm : mapped = true
    · rw [if_neg (not_not_intro hm)] at h ⊢
      cases hr : (handleRollForOrder store pid ent.dice).result with
      | error msg =>
        dsimp only
        refine ⟨?_, ?_⟩
        · rcases handleRollForOrder_store_cases store pid ent.dice with hs | ⟨g2, hok⟩
          · exact hs
          · rw [hok] at hr; cases hr
        · intro em hem
          rw [List.mem_singleton] at hem
          subst hem
          rfl
      | ok g2 =>
        rw [hr] at h
        simp at h
    · rw [if_pos hm] at h ⊢
      dsimp only at h ⊢
      refine ⟨rfl, ?_⟩
      intro em hem
      rw [List.mem_singleton] at hem
      subst hem
      rfl
  | roll_dice =>
    unfold handleGameEvents at h ⊢
    dsimp only at h ⊢
    by_cases hm : mapped = true
    · rw [if_neg (not_not_intro hm)] at h ⊢
      cases hr : (handleDiceRoll store pid ent.dice).result with
      | error msg =>
        dsimp only
        refine ⟨?_, ?_⟩
        · rcases handleDiceRoll_store_cases store pid ent.dice with hs | ⟨g2, hok⟩
          · exact hs
          · rw [hok] at hr; cases hr
        · intro em hem
          rw [List.mem_singleton] at hem
          subst hem
          rfl
      | ok g2 =>
        rw [hr] at h
        simp at h
    · rw [if_pos hm] at h ⊢
      dsimp only at h ⊢
      refine ⟨rfl, ?_⟩
      intro em hem
      rw [List.mem_singleton] at hem
      subst hem
      rfl
  | discardCards r =>
    unfold handleGameEvents at h ⊢
    dsimp only at h ⊢
    by_cases hm : mapped = true
    · rw [if_neg (not_not_intro hm)] at h ⊢
      cases hr : (handleDiscard store pid r).result with
      | error msg =>
        dsimp only
        refine ⟨?_, ?_⟩
        · rcases handleDiscard_store_cases store pid r with hs | ⟨g2, hok⟩
          · exact hs
          · rw [hok] at hr; cases hr
        · intro em hem
          rw [List.mem_singleton] at hem
          subst hem
          rfl
      | ok g2 =>
        rw [hr] at h
        simp at h
    · rw [if_pos hm] at h ⊢
      dsimp only at h ⊢
      refine ⟨rfl, ?_⟩
      intro em hem
      exact absurd hem (List.not_mem_nil em)
  | move_robber hexId =>
    unfold handleGameEvents at h ⊢
    dsimp only at h ⊢
    by_cases hm : mapped = true
    · rw [if_neg (not_not_intro hm)] at h ⊢
      cases hr : (handleMoveRobber store pid hexId).result with
      | error msg =>
        dsimp only
        refine ⟨?_, ?_⟩
        · rcases handleMoveRobber_store_cases store pid hexId with hs | ⟨g2, hok⟩
          · exact hs
          · rw [hok] at hr; cases hr
        · intro em hem
          rw [List.mem_singleton] at hem
          subst hem
          rfl
      | ok g2 =>
        rw [hr] at h
        simp at h
    · rw [if_pos hm] at h ⊢
      dsimp only at h ⊢
      refine ⟨rfl, ?_⟩
      intro em hem
      exact absurd hem (List.not_mem_nil em)
  | steal_from victimId =>
    unfold handleGameEvents at h ⊢
    dsimp only at h ⊢
    by_cases hm : mapped = true
    · rw [if_neg (not_not_intro hm)] at h ⊢
      cases hr : (handleSteal store pid victimId ent.stealIdx).result with
      | error msg =>
        dsimp only
        refine ⟨?_, ?_⟩
        · rcases handleSteal_store_cases store pid victimId ent.stealIdx with hs | ⟨g2, hok⟩
          · exact hs
          · rw [hok] at hr; cases hr
        · intro em hem
          rw [List.mem_singleton] at hem
          subst hem
          rfl
      | ok g2 =>
        rw [hr] at h
        simp at h
    · rw [if_pos hm] at h ⊢
      dsimp only at h ⊢
      refine ⟨rfl, ?_⟩
      intro em hem
      exact absurd hem (List.not_mem_nil em)
  | build_settlement v =>
    unfold handleGameEvents at h ⊢
    dsimp only at h ⊢
    by_cases hm : mapped = true
    · rw [if_neg (not_not_intro hm)] at h ⊢
      cases hr : (handleBuildSettlement store pid v ent.now).result with
      | error msg =>
        dsimp only
        refine ⟨?_, ?_⟩
        · rcases handleBuildSettlement_store_cases store pid v ent.now with hs | ⟨g2, hok⟩
          · exact hs
          · rw [hok] at hr; cases hr
        · intro em hem
          rw [List.mem_singleton] at hem
          subst hem
          rfl
      | ok g2 =>
        rw [hr] at h
        simp at h
    · rw [if_pos hm] at h ⊢
      dsimp only at h ⊢
      refine ⟨rfl, ?_⟩
      intro em hem
      exact absurd hem (List.not_mem_nil em)
  | build_city v =>
    unfold handleGameEvents at h ⊢
    dsimp only at h ⊢
    by_cases hm : mapped = true
    · rw [if_neg (not_not_intro hm)] at h ⊢
      cases hr : (handleBuildCity store pid v ent.now).result with
      | error msg =>
        dsimp only
        refine ⟨?_, ?_⟩
        · rcases handleBuildCity_store_cases store pid v ent.now with hs | ⟨g2, hok⟩
          · exact hs
          · rw [hok] at hr; cases hr
        · intro em hem
          rw [List.mem_singleton] at hem
          subst hem
          rfl
      | ok g2 =>
        rw [hr] at h
        simp at h
    · rw [if_pos hm] at h ⊢
      dsimp only at h ⊢
      refine ⟨rfl, ?_⟩
      intro em hem
      exact absurd hem (List.not_mem_nil em)
  | build_road e =>
    unfold handleGameEvents at h ⊢
    dsimp only at h ⊢
    by_cases hm : mapped = true
    · rw [if_neg (not_not_intro hm)] at h ⊢
      cases hr : (handleBuildRoad store pid e).result with
      | error msg =>
        dsimp only
        refine ⟨?_, ?_⟩
        · rcases handleBuildRoad_store_cases store pid e with hs | ⟨g2, hok⟩
          · exact hs
          · rw [hok] at hr; cases hr
        · intro em hem
          rw [List.mem_singleton] at hem
          subst hem
          rfl
      | ok g2 =>
        rw [hr] at h
        simp at h
    · rw [if_pos hm] at h ⊢
      dsimp only at h ⊢
      refine ⟨rfl, ?_⟩
      intro em hem
      exact absurd hem (List.not_mem_nil em)
  | buy_dev_card =>
    unfold handleGameEvents at h ⊢
    dsimp only at h ⊢
    by_cases hm : mapped = true
    · rw [if_neg (not_not_intro hm)] at h ⊢
      cases hr : (handleBuyDevCard store pid ent.cardIdx ent.cardId ent.now).result with
      | error msg =>
        dsimp only
        refine ⟨?_, ?_⟩
        · rcases handleBuyDevCard_store_cases store pid ent.cardIdx ent.cardId ent.now with hs | ⟨g2, hok⟩
          · exact hs
          · rw [hok] at hr; cases hr
        · intro em hem
          rw [List.mem_singleton] at hem
          subst hem
          rfl
      | ok g2 =>
        rw [hr] at h
        simp at h
    · rw [if_pos hm] at h ⊢
      dsimp only at h ⊢
      refine ⟨rfl, ?_⟩
      intro em hem
      exact absurd hem (List.not_mem_nil em)
  | end_turn =>
    unfold handleGameEvents at h ⊢
    dsimp only at h ⊢
    by_cases hm : mapped = true
    · rw [if_neg (not_not_intro hm)] at h ⊢
      cases hr : (handleEndTurn store pid).result with
      | error msg =>
        dsimp only
        refine ⟨?_, ?_⟩
        · rcases handleEndTurn_store_cases store pid with hs | ⟨g2, hok⟩
          · exact hs
          · rw [hok] at hr; cases hr
        · intro em hem
          rw [List.mem_singleton] at hem
          subst hem
          rfl
      | ok g2 =>
        rw [hr] at h
        simp at h
    · rw [if_pos hm] at h ⊢
      dsimp only at h ⊢
      refine ⟨rfl, ?_⟩
      intro em hem
      exact absurd hem (List.not_mem_nil em)

/-- C8 witness: rolling the dice in the `main` turn-phase fails with an
error; the stored state is untouched and only the submitter is notified. -/
theorem errors_are_local_witness :
    (handleGameEvents true (some gMain) "A" GameCommand.roll_dice entFix).errored = true ∧
    (handleGameEvents true (some gMain) "A" GameCommand.roll_dice entFix).store = some gMain ∧
    ∀ em ∈ (handleGameEvents true (some gMain) "A" GameCommand.roll_dice entFix).emissions,
      em.target = EmitTarget.submitter := by
  refine ⟨rfl, ?_, ?_⟩
  · exact (errors_are_local true (some gMain) "A" GameCommand.roll_dice entFix rfl).1
  · exact (errors_are_local true (some gMain) "A" GameCommand.roll_dice entFix rfl).2

/-! ### Winner check -/

theorem checkWinner_sets_winner (g : GameState) (now : Int)
    (hex : ∃ p ∈ g.players, 10 ≤ calculateTotalVictoryPoints p) :
    ∃ p ∈ (checkWinner g now).players, 10 ≤ calculateTotalVictoryPoints p ∧
      (checkWinner g now).winnerId = some p.id ∧
      (checkWinner g now).status = GameStatus.finished ∧
      (checkWinner g now).phase = GamePhase.finished ∧
      (checkWinner g now).finishedAt = some now := by
  unfold checkWinner
  cases hf : g.players.find?
      (fun p => decide (VICTORY_POINTS_TO_WIN ≤ calculateTotalVictoryPoints p)) with
  | none =>
    exfalso
    obtain ⟨p, hp, hvp⟩ := hex
    have hnone := List.find?_eq_none.mp hf p hp
    rw [VICTORY_POINTS_TO_WIN] at hnone
    simp only [decide_eq_true_eq] at hnone
    exact hnone hvp
  | some p =>
    have hmem := List.mem_of_find?_eq_some hf
    have hpred := List.find?_some hf
    rw [VICTORY_POINTS_TO_WIN] at hpred
    simp only [decide_eq_true_eq] at hpred
    exact ⟨p, hmem, hpred, rfl, rfl, rfl, rfl⟩

/-- C2 [amended]: the winner check runs after the build-settlement,
build-city and buy-dev-card commands: whenever one of them succeeds and
some player's total victory points (public plus unplayed victory-point
cards) reach 10, the resulting state names such a player as `winnerId`,
sets status and phase to `finished` and timestamps `finishedAt`.  A road
placement never runs the check, even when the longest-road award it moves
lifts a player to 10 (see the counterexample). -/
theorem winner_declared_after_build_commands (store : Option GameState)
    (pid v : String) (now : Int) (g' : GameState)
    (hok : (handleBuildSettlement store pid v now).result = Except.ok g' ∨
      (handleBuildCity store pid v now).result = Except.ok g' ∨
      ∃ idx cid, (handleBuyDevCard store pid idx cid now).result = Except.ok g')
    (hvp : ∃ p ∈ g'.players, 10 ≤ calculateTotalVictoryPoints p) :
    ∃ p ∈ g'.players, 10 ≤ calculateTotalVictoryPoints p ∧
      g'.winnerId = some p.id ∧ g'.status = GameStatus.finished ∧
      g'.phase = GamePhase.finished ∧ g'.finishedAt = some now := by
  rcases hok with h | h | ⟨idx, cid, h⟩
  · cases store with
    | none => cases h
    | some g =>
      unfold handleBuildSettlement at h
      dsimp only at h
      split at h
      · cases h
      · split at h
        · cases h
        · injection h with h
          subst h
          rw [checkWinner_players] at hvp
          exact checkWinner_sets_winner _ now hvp
  · cases store with
    | none => cases h
    | some g =>
      unfold handleBuildCity at h
      dsimp only at h
      split at h
      · cases h
      · split at h
        · cases h
        · injection h with h
          subst h
          rw [checkWinner_players] at hvp
          exact checkWinner_sets_winner _ now hvp
  · cases store with
    | none => cases h
    | some g =>
      unfold handleBuyDevCard at h
      dsimp only at h
      split at h
      · cases h
      · split at h
        · cases h
        · injection h with h
          subst h
          rw [checkWinner_players] at hvp
          exact checkWinner_sets_winner _ now hvp

/-- C2 [amended] witness: upgrading `s1` on `gCityWin` succeeds, reaches 10
points and the winner is declared. -/
theorem winner_declared_witness :
    (handleBuildCity (some gCityWin) "A" "s1" 99).result = Except.ok gCityWinAfter ∧
    (∃ p ∈ gCityWinAfter.players, 10 ≤ calculateTotalVictoryPoints p ∧
      gCityWinAfter.winnerId = some p.id ∧
      gCityWinAfter.status = GameStatus.finished ∧
      gCityWinAfter.phase = GamePhase.finished ∧
      gCityWinAfter.finishedAt = some 99) :=
  ⟨rfl,
   winner_declared_after_build_commands (some gCityWin) "A" "s1" 99 gCityWinAfter
     (Or.inr (Or.inl rfl)) (by decide)⟩

/-- C5: on a seven, exactly the players holding more than 7 cards enter
`pendingDiscards`, each owing `floor(handSize / 2)` (a player at exactly 7
owes nothing since only `> 7` hands qualify); a discard whose total differs
from the owed amount leaves the state unchanged; and the `robber_move`
turn-phase is produced only once every pending entry is marked discarded
(vacuously so when nobody owed). -/
theorem discard_barrier (g : GameState) (pid : String) (r : ResourceCount) :
    (∀ pd ∈ (handleRobber g).pendingDiscards,
       ∃ p ∈ g.players, pd.playerId = p.id ∧ 7 < countResources p.resources ∧
         pd.amountToDiscard = Int.fdiv (countResources p.resources) 2 ∧
         pd.discarded = false) ∧
    (∀ p ∈ g.players, 7 < countResources p.resources →
       ∃ pd ∈ (handleRobber g).pendingDiscards, pd.playerId = p.id ∧
         pd.amountToDiscard = Int.fdiv (countResources p.resources) 2 ∧
         pd.discarded = false) ∧
    (∀ pd, g.pendingDiscards.find? (fun x => decide (x.playerId = pid)) = some pd →
       countResources r ≠ pd.amountToDiscard → discardResources g pid r = g) ∧
    (g.turnPhase = TurnPhase.discard →
       (discardResources g pid r).turnPhase = TurnPhase.robber_move →
       ∀ pd ∈ (discardResources g pid r).pendingDiscards, pd.discarded = true) ∧
    ((handleRobber g).turnPhase = TurnPhase.robber_move →
       (handleRobber g).pendingDiscards = []) := by
  refine ⟨?_, ?_, ?_, ?_, ?_⟩
  · intro pd hpd
    unfold handleRobber at hpd
    dsimp only at hpd
    obtain ⟨p, hpf, hfp⟩ := List.mem_map.mp hpd
    obtain ⟨hpmem, hppred⟩ := List.mem_filter.mp hpf
    simp only [decide_eq_true_eq] at hppred
    subst hfp
    exact ⟨p, hpmem, rfl, hppred, rfl, rfl⟩
  · intro p hp hgt
    refine ⟨⟨p.id, Int.fdiv (countResources p.resources) 2, false⟩, ?_, rfl, rfl, rfl⟩
    unfold handleRobber
    dsimp only
    exact List.mem_map.mpr ⟨p, List.mem_filter.mpr ⟨hp, by simp [hgt]⟩, rfl⟩
  · intro pd hfind hne
    unfold discardResources
    cases hp : g.players.find? (fun p => decide (p.id = pid)) with
    | none => rfl
    | some q =>
      rw [hfind]
      dsimp only
      by_cases hd : pd.discarded = true
      · rw [if_pos hd]
      · rw [if_neg hd, if_pos hne]
  · intro hph hph' pd hpd
    unfold discardResources at hph' hpd
    cases hp : g.players.find? (fun p => decide (p.id = pid)) with
    | none =>
      rw [hp] at hph'
      rw [hph] at hph'
      cases hph'
    | some q =>
      rw [hp] at hph' hpd
      cases hf : g.pendingDiscards.find? (fun x => decide (x.playerId = pid)) with
      | none =>
        rw [hf] at hph' hpd
        rw [hph] at hph'
        cases hph'
      | some pending =>
        rw [hf] at hph' hpd
        dsimp only at hph' hpd
        by_cases hd : pending.discarded = true
        · rw [if_pos hd] at hph' hpd
          rw [hph] at hph'
          cases hph'
        · rw [if_neg hd] at hph' hpd
          by_cases hc : countResources r ≠ pending.amountToDiscard
          · rw [if_pos hc] at hph' hpd
            rw [hph] at hph'
            cases hph'
          · rw [if_neg hc] at hph' hpd
            dsimp only at hph' hpd
            by_cases ha : (g.pendingDiscards.map (fun pd =>
                if pd.playerId = pid then { pd with discarded := true } else pd)).all
                  (fun pd => pd.discarded) = true
            · exact List.all_eq_true.mp ha pd hpd
            · rw [if_neg ha] at hph'
              cases hph'
  · unfold handleRobber
    dsimp only
    intro hph
    split at hph
    · cases hph
    next hl =>
      have h0 : ((g.players.filter (fun p => decide (7 < countResources p.resources))).map
          (fun p => PendingDiscard.mk p.id (Int.fdiv (countResources p.resources) 2)
            false)).length = 0 := by omega
      exact List.length_eq_zero.mp h0

/-- C5 witness: on `gSeven` the 9-card player A owes 4 and the 7-card
player B owes nothing; a 3-card discard against a 4-card debt on `gDiscard`
is rejected unchanged; completing the debt yields `robber_move` with every
entry marked; and on `gMain` (nobody over 7) the list is empty. -/
theorem discard_barrier_witness :
    (∃ p ∈ gSeven.players, "A" = p.id ∧ 7 < countResources p.resources ∧
       (4 : Int) = Int.fdiv (countResources p.resources) 2 ∧ false = false) ∧
    discardResources gDiscard "A" ⟨3, 0, 0, 0, 0⟩ = gDiscard ∧
    (∀ pd ∈ (discardResources gDiscard "A" ⟨4, 0, 0, 0, 0⟩).pendingDiscards,
       pd.discarded = true) ∧
    (handleRobber gMain).pendingDiscards = [] := by
  refine ⟨?_, ?_, ?_, ?_⟩
  · exact (discard_barrier gSeven "A" ⟨3, 0, 0, 0, 0⟩).1 ⟨"A", 4, false⟩ (by decide)
  · exact (discard_barrier gDiscard "A" ⟨3, 0, 0, 0, 0⟩).2.2.1 ⟨"A", 4, false⟩ rfl
      (by decide)
  · exact (discard_barrier gDiscard "A" ⟨4, 0, 0, 0, 0⟩).2.2.2.1 rfl rfl
  · exact (discard_barrier gMain "A" ⟨0, 0, 0, 0, 0⟩).2.2.2.2 rfl

/-- C7 [amended]: a dev-card purchase requires affording `{ore:1, grain:1,
wool:1}` and a non-empty deck (otherwise the state is unchanged); on
success the deck count drops by one, the buyer gains exactly one card
tagged `purchasedOnTurn = turnNumber` and `played = false` whose type is
the `cardIdx`-th entry of the fixed canonical 25-type array, and every
other player is untouched.  The deck is only a counter, so each draw is
taken from the same fixed array — with replacement — and the drawn multiset
can exceed the canonical per-type counts (see the counterexample). -/
theorem buyDevCard_contract (g : GameState) (pid : String) (idx : Nat)
    (cid : String) (p : PlayerState)
    (hfind : g.players.find? (fun q => decide (q.id = pid)) = some p) :
    (¬ (canAfford p.resources devCardCost = true ∧ 0 < g.devCardDeckCount) →
       buyDevCard g pid idx cid = g) ∧
    (canAfford p.resources devCardCost = true → 0 < g.devCardDeckCount →
       (buyDevCard g pid idx cid).devCardDeckCount = g.devCardDeckCount - 1 ∧
       (∃ q ∈ (buyDevCard g pid idx cid).players, q.id = p.id ∧
          q.devCards = p.devCards ++
            [⟨cid, cardTypes.getD idx DevCardType.knight, g.turnNumber, false⟩] ∧
          q.resources = subtractResources p.resources devCardCost) ∧
       (∀ q ∈ g.players, q.id ≠ pid → q ∈ (buyDevCard g pid idx cid).players)) := by
  have hpid : p.id = pid := by
    have := List.find?_some hfind
    simpa [decide_eq_true_eq] using this
  have hpm := List.mem_of_find?_eq_some hfind
  constructor
  · intro hno
    unfold buyDevCard
    rw [hfind]
    dsimp only
    by_cases hca : canAfford p.resources devCardCost = true
    · rw [if_neg (not_not_intro hca)]
      rw [if_pos (by
        by_cases hdk : 0 < g.devCardDeckCount
        · exact absurd ⟨hca, hdk⟩ hno
        · omega)]
    · rw [if_pos hca]
  · intro hca hdeck
    unfold buyDevCard
    rw [hfind]
    dsimp only
    rw [if_neg (not_not_intro hca), if_neg (by omega)]
    refine ⟨rfl, ?_, ?_⟩
    · refine ⟨_, List.mem_map.mpr ⟨p, hpm, rfl⟩, ?_, ?_, ?_⟩ <;>
        rw [if_pos hpid]
    · intro q hq hne
      exact List.mem_map.mpr ⟨q, hq, by rw [if_neg hne]⟩

/-- C7 [amended] witness: the first purchase on `gBuy` at draw index 24
decrements the deck to 24, hands A a fresh unplayed card of the 24-th
canonical type, and leaves B untouched. -/
theorem buyDevCard_contract_witness :
    (buyDevCard gBuy "A" 24 "c1").devCardDeckCount = gBuy.devCardDeckCount - 1 ∧
    (∃ q ∈ (buyDevCard gBuy "A" 24 "c1").players, q.id = pABuy.id ∧
       q.devCards = pABuy.devCards ++
         [⟨"c1", cardTypes.getD 24 DevCardType.knight, gBuy.turnNumber, false⟩] ∧
       q.resources = subtractResources pABuy.resources devCardCost) ∧
    (∀ q ∈ gBuy.players, q.id ≠ "A" → q ∈ (buyDevCard gBuy "A" 24 "c1").players) :=
  (buyDevCard_contract gBuy "A" 24 "c1" pABuy rfl).2 (by decide) (by decide)

/-! ### Board generator lemmas -/

theorem buildHexes_map_coord (cs : List AxialCoord) :
    ∀ (ts : List Terrain) (ns : List Int),
      (buildHexes cs ts ns).map (·.coord) = cs := by
  induction cs with
  | nil => intro ts ns; rfl
  | cons c cs ih =>
    intro ts ns
    unfold buildHexes
    dsimp only
    split
    · simp [ih]
    · cases ns with
      | nil => simp [ih]
      | cons n ns' => simp [ih]

theorem buildHexes_map_id (cs : List AxialCoord) :
    ∀ (ts : List Terrain) (ns : List Int),
      (buildHexes cs ts ns).map (·.id) = cs.map hexId := by
  induction cs with
  | nil => intro ts ns; rfl
  | cons c cs ih =>
    intro ts ns
    unfold buildHexes
    dsimp only
    split
    · simp [ih]
    · cases ns with
      | nil => simp [ih]
      | cons n ns' => simp [ih]

theorem buildHexes_map_terrain (cs : List AxialCoord) :
    ∀ (ts : List Terrain) (ns : List Int), ts.length = cs.length →
      (buildHexes cs ts ns).map (·.terrain) = ts := by
  induction cs with
  | nil =>
    intro ts ns h
    cases ts with
    | nil => rfl
    | cons t ts' => simp at h
  | cons c cs ih =>
    intro ts ns h
    cases ts with
    | nil => simp at h
    | cons t ts' =>
      have h' : ts'.length = cs.length := by simpa using h
      unfold buildHexes
      dsimp only
      split
      · simp [ih ts' ns h']
      · cases ns with
        | nil => simp [ih ts' [] h']
        | cons n ns' => simp [ih ts' ns' h']

theorem buildHexes_desert_none (cs : List AxialCoord) :
    ∀ (ts : List Terrain) (ns : List Int),
      ∀ h ∈ buildHexes cs ts ns, h.terrain = Terrain.desert → h.numberToken = none := by
  induction cs with
  | nil => intro ts ns h hmem; cases hmem
  | cons c cs ih =>
    intro ts ns h hmem hdes
    unfold buildHexes at hmem
    dsimp only at hmem
    split at hmem
    · rcases List.mem_cons.mp hmem with rfl | htail
      · rfl
      · exact ih ts.tail ns h htail hdes
    next hne =>
      cases ns with
      | nil =>
        rcases List.mem_cons.mp hmem with rfl | htail
        · rfl
        · exact ih ts.tail [] h htail hdes
      | cons n ns' =>
        rcases List.mem_cons.mp hmem with rfl | htail
        · exact absurd hdes hne
        · exact ih ts.tail ns' h htail hdes

theorem buildHexes_tokens (cs : List AxialCoord) :
    ∀ (ts : List Terrain) (ns : List Int), ts.length = cs.length →
      (buildHexes cs ts ns).filterMap (·.numberToken) =
        ns.take ((ts.filter (fun t => decide (t ≠ Terrain.desert))).length) := by
  induction cs with
  | nil =>
    intro ts ns h
    cases ts with
    | nil => simp [buildHexes]
    | cons t ts' => simp at h
  | cons c cs ih =>
    intro ts ns h
    cases ts with
    | nil => simp at h
    | cons t ts' =>
      have h' : ts'.length = cs.length := by simpa using h
      unfold buildHexes
      dsimp only
      simp only [List.headD_cons, List.tail_cons]
      by_cases hdes : t = Terrain.desert
      · rw [if_pos hdes]
        simp only [List.filterMap_cons]
        rw [ih ts' ns h']
        simp [hdes]
      · rw [if_neg hdes]
        cases ns with
        | nil =>
          simp only [List.filterMap_cons]
          rw [ih ts' [] h']
          simp
        | cons n ns' =>
          simp only [List.filterMap_cons]
          rw [ih ts' ns' h']
          simp [hdes, List.filter_cons]

theorem genLoop_shape (s : ShuffleStream) :
    ∀ (fuel i : Nat), ∃ j, i ≤ j ∧
      genLoop s fuel i =
        (buildHexes boardCoords (s.terrains j) (s.numbers j), j + 1) := by
  intro fuel
  induction fuel with
  | zero => intro i; exact ⟨i, Nat.le_refl i, rfl⟩
  | succ fuel ih =>
    intro i
    unfold genLoop
    dsimp only
    split
    · obtain ⟨j, hj, he⟩ := ih (i + 1)
      exact ⟨j, by omega, he⟩
    · exact ⟨i, Nat.le_refl i, rfl⟩

theorem genLoop_pos (s : ShuffleStream) :
    ∀ (fuel i : Nat), i + 1 ≤ (genLoop s fuel i).2 := by
  intro fuel
  induction fuel with
  | zero => intro i; exact Nat.le_refl _
  | succ fuel ih =>
    intro i
    unfold genLoop
    dsimp only
    split
    · exact Nat.le_trans (by omega) (ih (i + 1))
    · exact Nat.le_refl _

theorem genLoop_le (s : ShuffleStream) :
    ∀ (fuel i : Nat), i + 1 ≤ maxAttempts → (genLoop s fuel i).2 ≤ maxAttempts := by
  intro fuel
  induction fuel with
  | zero => intro i h; exact h
  | succ fuel ih =>
    intro i h
    unfold genLoop
    dsimp only
    split
    next hc => exact ih (i + 1) (by omega)
    next => exact h

theorem genLoop_invalid (s : ShuffleStream) :
    ∀ (fuel i : Nat), i + 1 ≤ maxAttempts → maxAttempts ≤ fuel + (i + 1) →
      hasAdjacentHighNumbers (genLoop s fuel i).1 = true →
      (genLoop s fuel i).2 = maxAttempts := by
  intro fuel
  induction fuel with
  | zero =>
    intro i h1 h2 hbad
    have h2' : maxAttempts ≤ i + 1 := by omega
    exact Nat.le_antisymm h1 h2'
  | succ fuel ih =>
    intro i h1 h2 hbad
    unfold genLoop at hbad ⊢
    dsimp only at hbad ⊢
    by_cases hc : hasAdjacentHighNumbers
        (buildHexes boardCoords (s.terrains i) (s.numbers i)) = true ∧
        i + 1 < maxAttempts
    · rw [if_pos hc] at hbad ⊢
      exact ih (i + 1) (by omega) (by omega) hbad
    · rw [if_neg hc] at hbad ⊢
      have hnl : ¬ (i + 1 < maxAttempts) := fun hlt => hc ⟨hbad, hlt⟩
      omega

theorem find?_eq_of_countP_eq_one {α : Type} (p : α → Bool) :
    ∀ (l : List α), l.countP p = 1 → ∀ a ∈ l, p a = true → l.find? p = some a := by
  intro l
  induction l with
  | nil => intro h a ha; cases ha
  | cons b t ih =>
    intro h a ha hpa
    rw [List.countP_cons] at h
    by_cases hb : p b = true
    · rw [List.find?_cons_of_pos _ hb]
      rw [if_pos hb] at h
      have ht : t.countP p = 0 := by omega
      rcases List.mem_cons.mp ha with rfl | hat
      · rfl
      · exact absurd hpa (List.countP_eq_zero.mp ht a hat)
    · rw [List.find?_cons_of_neg _ hb]
      rw [if_neg hb, Nat.add_zero] at h
      rcases List.mem_cons.mp ha with rfl | hat
      · exact absurd hpa hb
      · exact ih h a hat hpa

/-- C9: for any shuffle outcomes (each attempt a permutation of the
canonical terrain and number-token distributions), `generateBoard` returns
19 hexes laid out on the radius-2 spiral around the origin with the
canonical terrain multiset, the 18 canonical number tokens on the
non-desert tiles (desert carries none), and the robber on the desert hex;
the loop makes between 1 and 100 attempts, a board still violating the
6/8-separation constraint is returned only after the 100th attempt (when
the source logs its warning, `attempts >= maxAttempts`), and the function
always returns the last attempt rather than failing. -/
theorem generateBoard_spec (s : ShuffleStream)
    (ht : ∀ n, (s.terrains n).Perm TERRAIN_DISTRIBUTION)
    (hn : ∀ n, (s.numbers n).Perm NUMBER_DISTRIBUTION) :
    (generateBoard s).1.hexes.length = 19 ∧
    (generateBoard s).1.hexes.map (·.coord) = boardCoords ∧
    (generateBoard s).1.hexes.map (·.id) = boardCoords.map hexId ∧
    ((generateBoard s).1.hexes.map (·.terrain)).Perm TERRAIN_DISTRIBUTION ∧
    ((generateBoard s).1.hexes.filterMap (·.numberToken)).Perm NUMBER_DISTRIBUTION ∧
    (∀ h ∈ (generateBoard s).1.hexes, h.terrain = Terrain.desert →
       h.numberToken = none) ∧
    (∃ h ∈ (generateBoard s).1.hexes, h.terrain = Terrain.desert ∧
       (generateBoard s).1.robberHexId = h.id) ∧
    (∀ h ∈ (generateBoard s).1.hexes, h.terrain = Terrain.desert →
       (generateBoard s).1.robberHexId = h.id) ∧
    1 ≤ (generateBoard s).2 ∧ (generateBoard s).2 ≤ maxAttempts ∧
    (hasAdjacentHighNumbers (generateBoard s).1.hexes = true →
       (generateBoard s).2 = maxAttempts) := by
  obtain ⟨j, hj, hloop⟩ := genLoop_shape s maxAttempts 0
  have htl : (s.terrains j).length = boardCoords.length := by
    rw [(ht j).length_eq]; decide
  have hx : (generateBoard s).1.hexes =
      buildHexes boardCoords (s.terrains j) (s.numbers j) := by
    unfold generateBoard
    dsimp only
    rw [hloop]
  have hcount : (buildHexes boardCoords (s.terrains j) (s.numbers j)).countP
      (fun h => decide (h.terrain = Terrain.desert)) = 1 := by
    have hmapc := List.countP_map (fun t => decide (t = Terrain.desert))
      (fun h : HexTile => h.terrain)
      (buildHexes boardCoords (s.terrains j) (s.numbers j))
    have : (buildHexes boardCoords (s.terrains j) (s.numbers j)).countP
        (fun h => decide (h.terrain = Terrain.desert)) =
        ((buildHexes boardCoords (s.terrains j) (s.numbers j)).map
          (·.terrain)).countP (fun t => decide (t = Terrain.desert)) := by
      rw [hmapc]; rfl
    rw [this, buildHexes_map_terrain boardCoords (s.terrains j) (s.numbers j) htl,
      (ht j).countP_eq]
    decide
  have hrob : ∀ d, (buildHexes boardCoords (s.terrains j) (s.numbers j)).find?
      (fun h => decide (h.terrain = Terrain.desert)) = some d →
      (generateBoard s).1.robberHexId = d.id := by
    intro d hfd
    unfold generateBoard
    dsimp only
    rw [hloop]
    dsimp only
    rw [hfd]
    rfl
  refine ⟨?_, ?_, ?_, ?_, ?_, ?_, ?_, ?_, ?_, ?_, ?_⟩
  · rw [hx, ← List.length_map (buildHexes boardCoords (s.terrains j) (s.numbers j))
      (·.coord), buildHexes_map_coord]
    decide
  · rw [hx]
    exact buildHexes_map_coord boardCoords (s.terrains j) (s.numbers j)
  · rw [hx]
    exact buildHexes_map_id boardCoords (s.terrains j) (s.numbers j)
  · rw [hx, buildHexes_map_terrain boardCoords (s.terrains j) (s.numbers j) htl]
    exact ht j
  · rw [hx, buildHexes_tokens boardCoords (s.terrains j) (s.numbers j) htl]
    have hk : ((s.terrains j).filter (fun t => decide (t ≠ Terrain.desert))).length =
        18 := by
      rw [(List.Perm.filter _ (ht j)).length_eq]; decide
    have hnl : (s.numbers j).length = 18 := by
      rw [(hn j).length_eq]; decide
    rw [hk, List.take_of_length_le (by omega)]
    exact hn j
  · rw [hx]
    exact buildHexes_desert_none boardCoords (s.terrains j) (s.numbers j)
  · have hpos : 0 < (buildHexes boardCoords (s.terrains j) (s.numbers j)).countP
        (fun h => decide (h.terrain = Terrain.desert)) := by omega
    obtain ⟨d, hd, hpd⟩ := List.countP_pos_iff.mp hpos
    refine ⟨d, ?_, ?_, ?_⟩
    · rw [hx]; exact hd
    · simpa [decide_eq_true_eq] using hpd
    · exact hrob d (find?_eq_of_countP_eq_one _ _ hcount d hd hpd)
  · intro h hmem hdes
    rw [hx] at hmem
    exact hrob h (find?_eq_of_countP_eq_one _ _ hcount h hmem (by simp [hdes]))
  · exact genLoop_pos s maxAttempts 0
  · exact genLoop_le s maxAttempts 0 (by decide)
  · intro hbad
    exact genLoop_invalid s maxAttempts 0 (by decide) (by decide) hbad

/-- C9 witness: the identity shuffle stream satisfies the permutation
hypotheses, and the resulting board has the claimed shape. -/
theorem generateBoard_spec_witness :
    (generateBoard idStream).1.hexes.length = 19 ∧
    ((generateBoard idStream).1.hexes.map (·.terrain)).Perm TERRAIN_DISTRIBUTION ∧
    ((generateBoard idStream).1.hexes.filterMap
      (·.numberToken)).Perm NUMBER_DISTRIBUTION ∧
    (∃ h ∈ (generateBoard idStream).1.hexes, h.terrain = Terrain.desert ∧
       (generateBoard idStream).1.robberHexId = h.id) ∧
    (generateBoard idStream).2 ≤ maxAttempts := by
  have hs := generateBoard_spec idStream (fun _ => List.Perm.refl _)
    (fun _ => List.Perm.refl _)
  exact ⟨hs.1, hs.2.2.2.1, hs.2.2.2.2.1, hs.2.2.2.2.2.2.1, hs.2.2.2.2.2.2.2.2.2.1⟩

end Catan
